import Mathlib

/-!
# CloudViz — verification of the graph model, inference, layout and rendering claims

Shallow embedding of the relevant parts of the `cloudviz` Python code base:

* `cloudviz/core/models.py` — `ResourceType`, `CloudProvider`, `RelationshipType`,
  `ExtractionScope`, `CloudResource`, `ResourceRelationship`, `ResourceInventory`
  and their `to_dict` / `from_dict` serialisation;
* `cloudviz/visualization/layouts.py` — the five layout algorithms;
* `cloudviz/visualization/engines/mermaid.py` — label / node generation;
* `cloudviz/core/base.py` and the engines — option validation and render control flow;
* `cloudviz/providers/azure/extractor.py` — relationship inference.

Python dynamic values (the `properties` / `metadata` / wire-format trees) are
modelled by the inductive type `PyVal`; Python `dict`s become association lists
whose insertion/overwrite semantics (`dinsert`) mirror CPython's insertion-order
preserving dictionaries.  `datetime` objects are opaque values `PyDateTime`; the
standard-library pair `datetime.isoformat` / `datetime.fromisoformat` is an
external collaborator and is passed to the (de)serialisers as a function pair
whose left-inverse property is a hypothesis where a theorem needs it.
-/

namespace Cloudviz

/-- A Python runtime value, as stored in `properties`, `tags`, `metadata` and in
the wire-format dictionaries produced by `to_dict`.  `dict` keeps the key/value
pairs in insertion order, like a CPython `dict`. -/
inductive PyVal where
  | pynone : PyVal
  | pybool (b : Bool) : PyVal
  | num (q : ℚ) : PyVal
  | str (s : String) : PyVal
  | list (xs : List PyVal) : PyVal
  | dict (kvs : List (String × PyVal)) : PyVal

/-- Python truthiness (`bool(v)`) for the values of `PyVal`. -/
def PyVal.truthy : PyVal → Bool
  | .pynone => false
  | .pybool b => b
  | .num q => q ≠ 0
  | .str s => s ≠ ""
  | .list xs => !xs.isEmpty
  | .dict kvs => !kvs.isEmpty

/-- `d[k]` lookup in an insertion-ordered dictionary: the value of the first
(and, for a genuine `dict`, only) binding of `k`. -/
def dget (kvs : List (String × PyVal)) (k : String) : Option PyVal :=
  (kvs.find? (fun p => p.1 == k)).map (·.2)

/-- `d.get(k, default)`. -/
def dgetD (kvs : List (String × PyVal)) (k : String) (d : PyVal) : PyVal :=
  (dget kvs k).getD d

/-- `d[k] = v` on an insertion-ordered dictionary: overwrite in place when the
key is present, append otherwise — CPython keeps the original position of an
overwritten key. -/
def dinsert [BEq κ] (kvs : List (κ × α)) (k : κ) (v : α) : List (κ × α) :=
  if kvs.any (fun p => p.1 == k) then
    kvs.map (fun p => if p.1 == k then (k, v) else p)
  else
    kvs ++ [(k, v)]

/-- Lookup in a generic association list (a `dict` whose values are not `PyVal`). -/
def alget [BEq κ] (kvs : List (κ × α)) (k : κ) : Option α :=
  (kvs.find? (fun p => p.1 == k)).map (·.2)

/-- `dict.update(other)`: insert every binding of `other` into the dictionary,
in order. -/
def dupdate (a b : List (String × α)) : List (String × α) :=
  b.foldl (fun acc p => dinsert acc p.1 p.2) a

/-- Is `needle` a contiguous sublist of the second list? -/
def listContainsSub [BEq α] (needle : List α) : List α → Bool
  | [] => needle.isEmpty
  | x :: xs => needle.isPrefixOf (x :: xs) || listContainsSub needle xs

/-- `needle in hay` on Python strings (substring containment). -/
def strContains (hay needle : String) : Bool :=
  listContainsSub needle.data hay.data

/-- Split a list at every occurrence of the separator element. -/
def splitOnChar [BEq α] (c : α) : List α → List (List α)
  | [] => [[]]
  | x :: xs =>
    let r := splitOnChar c xs
    if x == c then [] :: r
    else match r with
      | [] => [[x]]
      | y :: ys => (x :: y) :: ys

/-- Python `s.split(c)` for a one-character separator. -/
def pySplitChar (s : String) (c : Char) : List String :=
  (splitOnChar c s.data).map String.mk

/-- Join chunks with a separator (`sep.join(parts)`). -/
def joinChars (sep : List Char) : List (List Char) → List Char
  | [] => []
  | [x] => x
  | x :: y :: ys => x ++ sep ++ joinChars sep (y :: ys)

/-- Python `sep.join(parts)`. -/
def pyJoin (sep : String) (parts : List String) : String :=
  String.mk (joinChars sep.data (parts.map String.data))

/-- Python `s.replace(old, new)` for a one-character `old`. -/
def pyReplaceChar (s : String) (old : Char) (new : String) : String :=
  String.mk (joinChars new.data (splitOnChar old s.data))

/-- Deduplicate a list keeping the first occurrence of each element. -/
def dedupKeepFirst [BEq α] : List α → List α
  | [] => []
  | x :: xs => x :: (dedupKeepFirst xs).filter (fun y => !(y == x))

/-- An opaque CPython `datetime` value.  The payload is irrelevant: the code
under verification only ever passes timestamps to `isoformat` and back through
`fromisoformat`, which are modelled as an abstract function pair. -/
structure PyDateTime where
  stamp : Nat
deriving DecidableEq

/-! ## `cloudviz/core/models.py` — enumerations -/

/-- `ResourceType` (models.py lines 13–46). -/
inductive ResourceType where
  | virtual_machine | container_instance | kubernetes_cluster | serverless_function
  | storage_account | database | cache | blob_storage | object_storage
  | virtual_network | subnet | load_balancer | application_gateway | vpn_gateway
  | key_vault | security_group | firewall
  | resource_group | subscription | management_group
  | other
deriving DecidableEq

/-- The `.value` string of each `ResourceType` member. -/
def ResourceType.value : ResourceType → String
  | .virtual_machine => "virtual_machine"
  | .container_instance => "container_instance"
  | .kubernetes_cluster => "kubernetes_cluster"
  | .serverless_function => "serverless_function"
  | .storage_account => "storage_account"
  | .database => "database"
  | .cache => "cache"
  | .blob_storage => "blob_storage"
  | .object_storage => "object_storage"
  | .virtual_network => "virtual_network"
  | .subnet => "subnet"
  | .load_balancer => "load_balancer"
  | .application_gateway => "application_gateway"
  | .vpn_gateway => "vpn_gateway"
  | .key_vault => "key_vault"
  | .security_group => "security_group"
  | .firewall => "firewall"
  | .resource_group => "resource_group"
  | .subscription => "subscription"
  | .management_group => "management_group"
  | .other => "other"

/-- The enum call `ResourceType(s)`: the member with value `s`, or a
`ValueError` (here `none`) for an unknown string. -/
def ResourceType.ofValue (s : String) : Option ResourceType :=
  ([.virtual_machine, .container_instance, .kubernetes_cluster, .serverless_function,
    .storage_account, .database, .cache, .blob_storage, .object_storage,
    .virtual_network, .subnet, .load_balancer, .application_gateway, .vpn_gateway,
    .key_vault, .security_group, .firewall,
    .resource_group, .subscription, .management_group, .other] : List ResourceType).find?
    (fun t => t.value == s)

/-- `CloudProvider` (models.py lines 49–53). -/
inductive CloudProvider where
  | azure | aws | gcp
deriving DecidableEq

def CloudProvider.value : CloudProvider → String
  | .azure => "azure"
  | .aws => "aws"
  | .gcp => "gcp"

def CloudProvider.ofValue (s : String) : Option CloudProvider :=
  ([.azure, .aws, .gcp] : List CloudProvider).find? (fun t => t.value == s)

/-- `RelationshipType` (models.py lines 56–65): the closed set of eight
relationship kinds. -/
inductive RelationshipType where
  | contains | connects_to | depends_on | managed_by
  | secured_by | routes_to | replicates_to | backs_up_to
deriving DecidableEq

def RelationshipType.value : RelationshipType → String
  | .contains => "contains"
  | .connects_to => "connects_to"
  | .depends_on => "depends_on"
  | .managed_by => "managed_by"
  | .secured_by => "secured_by"
  | .routes_to => "routes_to"
  | .replicates_to => "replicates_to"
  | .backs_up_to => "backs_up_to"

/-- The enum call `RelationshipType(s)`: the member with value `s`, or a
`ValueError` (`none`) otherwise.  This is the only place the code base checks a
relationship kind, and it is reached only from `ResourceRelationship.from_dict`. -/
def RelationshipType.ofValue (s : String) : Option RelationshipType :=
  ([.contains, .connects_to, .depends_on, .managed_by,
    .secured_by, .routes_to, .replicates_to, .backs_up_to] : List RelationshipType).find?
    (fun t => t.value == s)

/-- `ExtractionScope` (models.py lines 68–76). -/
inductive ExtractionScope where
  | subscription | resource_group | tag | region | organization | project | account
deriving DecidableEq

def ExtractionScope.value : ExtractionScope → String
  | .subscription => "subscription"
  | .resource_group => "resource_group"
  | .tag => "tag"
  | .region => "region"
  | .organization => "organization"
  | .project => "project"
  | .account => "account"

def ExtractionScope.ofValue (s : String) : Option ExtractionScope :=
  ([.subscription, .resource_group, .tag, .region, .organization, .project,
    .account] : List ExtractionScope).find? (fun t => t.value == s)

/-! ## `cloudviz/core/models.py` — `CloudResource` -/

/-- `CloudResource` (models.py lines 79–104), after `__post_init__` has run:
`location` has been defaulted to `region` when it was `None`, and the
`created_time` / `last_modified` fields hold `datetime` values (never strings).
`metadata` and `properties` are arbitrary nested dictionaries; `tags` is a
string-to-string dictionary. -/
structure CloudResource where
  id : String
  name : String
  resource_type : ResourceType
  provider : CloudProvider
  region : String
  metadata : List (String × PyVal) := []
  tags : List (String × String) := []
  properties : List (String × PyVal) := []
  created_time : Option PyDateTime := none
  last_modified : Option PyDateTime := none
  resource_group : Option String := none
  subscription_id : Option String := none
  parent_resource : Option String := none
  state : Option String := none
  location : Option String := none
  size : Option String := none
  cost_center : Option String := none
  owner : Option String := none
  environment : Option String := none

/-- Encode an optional string field for the wire format (`x if x else None`
style fields are written as the string itself or `None`). -/
def optStr : Option String → PyVal
  | none => .pynone
  | some s => .str s

/-- Decode a wire value that must be a string or `None`. -/
def decodeOptStr : PyVal → Option (Option String)
  | .pynone => some none
  | .str s => some (some s)
  | _ => none

/-- Encode a `tags` dictionary (string values) as a wire dictionary. -/
def encodeTags (ts : List (String × String)) : PyVal :=
  .dict (ts.map (fun p => (p.1, .str p.2)))

/-- Decode a wire dictionary whose values must all be strings back into a
`tags` dictionary. -/
def decodeTags : PyVal → Option (List (String × String))
  | .dict kvs =>
      kvs.foldr (fun p acc =>
        match p.2, acc with
        | .str s, some ts => some ((p.1, s) :: ts)
        | _, _ => none) (some [])
  | _ => none

/-- Decode a wire value that must be a dictionary (`metadata` / `properties`
pass-through). -/
def decodeDict : PyVal → Option (List (String × PyVal))
  | .dict kvs => some kvs
  | _ => none

/-- Decode an optional timestamp as `CloudResource.__post_init__` does: a
string is parsed with `datetime.fromisoformat(s.replace('Z', '+00:00'))`
(a parse failure raises, i.e. yields `none`); `None` stays `None`. -/
def decodeOptTime (parse : String → Option PyDateTime) : PyVal → Option (Option PyDateTime)
  | .pynone => some none
  | .str s => (parse (pyReplaceChar s 'Z' "+00:00")).map some
  | _ => none

/-- `CloudResource.to_dict` (models.py lines 117–139): the exact 19-key wire
dictionary, enums encoded by `.value`, timestamps by `isoformat`, the
`metadata` / `tags` / `properties` dictionaries passed through unchanged. -/
def CloudResource.to_dict (iso : PyDateTime → String) (r : CloudResource) : PyVal :=
  .dict [
    ("id", .str r.id),
    ("name", .str r.name),
    ("resource_type", .str r.resource_type.value),
    ("provider", .str r.provider.value),
    ("region", .str r.region),
    ("metadata", .dict r.metadata),
    ("tags", encodeTags r.tags),
    ("properties", .dict r.properties),
    ("created_time", optStr (r.created_time.map iso)),
    ("last_modified", optStr (r.last_modified.map iso)),
    ("resource_group", optStr r.resource_group),
    ("subscription_id", optStr r.subscription_id),
    ("parent_resource", optStr r.parent_resource),
    ("state", optStr r.state),
    ("location", optStr r.location),
    ("size", optStr r.size),
    ("cost_center", optStr r.cost_center),
    ("owner", optStr r.owner),
    ("environment", optStr r.environment)]

/-- `CloudResource.from_dict` (models.py lines 141–148) followed by
`__post_init__` (lines 106–115): the enum strings are converted back through
the enum constructors (unknown values raise, i.e. `none`), the timestamp
strings are parsed, and `location` is defaulted to `region` when `None`. -/
def CloudResource.from_dict (parse : String → Option PyDateTime) :
    PyVal → Option CloudResource
  | .dict kvs => do
    let .str id := dgetD kvs "id" .pynone | none
    let .str name := dgetD kvs "name" .pynone | none
    let .str rts := dgetD kvs "resource_type" .pynone | none
    let resource_type ← ResourceType.ofValue rts
    let .str pvs := dgetD kvs "provider" .pynone | none
    let provider ← CloudProvider.ofValue pvs
    let .str region := dgetD kvs "region" .pynone | none
    let metadata ← decodeDict (dgetD kvs "metadata" .pynone)
    let tags ← decodeTags (dgetD kvs "tags" .pynone)
    let properties ← decodeDict (dgetD kvs "properties" .pynone)
    let created_time ← decodeOptTime parse (dgetD kvs "created_time" .pynone)
    let last_modified ← decodeOptTime parse (dgetD kvs "last_modified" .pynone)
    let resource_group ← decodeOptStr (dgetD kvs "resource_group" .pynone)
    let subscription_id ← decodeOptStr (dgetD kvs "subscription_id" .pynone)
    let parent_resource ← decodeOptStr (dgetD kvs "parent_resource" .pynone)
    let state ← decodeOptStr (dgetD kvs "state" .pynone)
    let location ← decodeOptStr (dgetD kvs "location" .pynone)
    let size ← decodeOptStr (dgetD kvs "size" .pynone)
    let cost_center ← decodeOptStr (dgetD kvs "cost_center" .pynone)
    let owner ← decodeOptStr (dgetD kvs "owner" .pynone)
    let environment ← decodeOptStr (dgetD kvs "environment" .pynone)
    some { id, name, resource_type, provider, region, metadata, tags, properties,
           created_time, last_modified, resource_group, subscription_id,
           parent_resource, state,
           location := location.getD region,
           size, cost_center, owner, environment }
  | _ => none

/-- `CloudResource.get_category` (models.py lines 162–186): the closed mapping
from resource type to visualisation category, defaulting to `"Other"`. -/
def CloudResource.get_category (r : CloudResource) : String :=
  match r.resource_type with
  | .virtual_machine | .container_instance | .kubernetes_cluster
  | .serverless_function => "Compute"
  | .storage_account | .database | .cache | .blob_storage
  | .object_storage => "Storage"
  | .virtual_network | .subnet | .load_balancer | .application_gateway
  | .vpn_gateway => "Networking"
  | .key_vault | .security_group | .firewall => "Security"
  | .resource_group | .subscription | .management_group => "Management"
  | .other => "Other"

/-! ## `cloudviz/core/models.py` — `ResourceRelationship` -/

/-- `ResourceRelationship` (models.py lines 189–200).  The dataclass
constructor performs no validation of any field: it stores whatever it is
given.  The declared type of `relationship_type` is the enum, but at runtime
(Python is dynamically typed) any value can be passed; the typed structure
below is the well-typed case used everywhere a relationship is consumed. -/
structure ResourceRelationship where
  source_id : String
  target_id : String
  relationship_type : RelationshipType
  properties : List (String × PyVal) := []
  metadata : List (String × PyVal) := []
  strength : ℚ := 1
  bidirectional : Bool := false

/-- The dynamically-typed view of a `ResourceRelationship` construction: the
dataclass `__init__` as Python actually executes it, with the kind received as
an arbitrary runtime value (here: any string).  There is no check and no error
path — construction always succeeds and stores the value verbatim. -/
structure DynResourceRelationship where
  source_id : String
  target_id : String
  relationship_type : String
deriving DecidableEq

/-- The dataclass constructor call
`ResourceRelationship(source_id=s, target_id=t, relationship_type=k)` on an
arbitrary kind value: total, never raises. -/
def mkResourceRelationshipDyn (s t k : String) : DynResourceRelationship :=
  { source_id := s, target_id := t, relationship_type := k }

/-- `ResourceRelationship.to_dict` (models.py lines 202–212). -/
def ResourceRelationship.to_dict (rel : ResourceRelationship) : PyVal :=
  .dict [
    ("source_id", .str rel.source_id),
    ("target_id", .str rel.target_id),
    ("relationship_type", .str rel.relationship_type.value),
    ("properties", .dict rel.properties),
    ("metadata", .dict rel.metadata),
    ("strength", .num rel.strength),
    ("bidirectional", .pybool rel.bidirectional)]

/-- `ResourceRelationship.from_dict` (models.py lines 214–218): the kind string
goes back through the enum constructor (`none` on an unknown value). -/
def ResourceRelationship.from_dict : PyVal → Option ResourceRelationship
  | .dict kvs => do
    let .str source_id := dgetD kvs "source_id" .pynone | none
    let .str target_id := dgetD kvs "target_id" .pynone | none
    let .str rts := dgetD kvs "relationship_type" .pynone | none
    let relationship_type ← RelationshipType.ofValue rts
    let properties ← decodeDict (dgetD kvs "properties" .pynone)
    let metadata ← decodeDict (dgetD kvs "metadata" .pynone)
    let .num strength := dgetD kvs "strength" .pynone | none
    let .pybool bidirectional := dgetD kvs "bidirectional" .pynone | none
    some { source_id, target_id, relationship_type, properties, metadata,
           strength, bidirectional }
  | _ => none

/-! ## `cloudviz/core/models.py` — `ResourceInventory` -/

/-- `ResourceInventory` (models.py lines 235–246). -/
structure ResourceInventory where
  resources : List CloudResource := []
  relationships : List ResourceRelationship := []
  metadata : List (String × PyVal) := []
  extraction_time : PyDateTime
  extraction_scope : Option ExtractionScope := none
  scope_identifier : Option String := none
  provider : Option CloudProvider := none

/-- `ResourceInventory.add_resource` (models.py lines 248–250): an
unconditional `self.resources.append(resource)` — there is no duplicate-id
check and no error path. -/
def ResourceInventory.add_resource (inv : ResourceInventory) (r : CloudResource) :
    ResourceInventory :=
  { inv with resources := inv.resources ++ [r] }

/-- `ResourceInventory.add_relationship` (models.py lines 252–254): an
unconditional append. -/
def ResourceInventory.add_relationship (inv : ResourceInventory)
    (rel : ResourceRelationship) : ResourceInventory :=
  { inv with relationships := inv.relationships ++ [rel] }

/-- `ResourceInventory.to_dict` (models.py lines 278–288). -/
def ResourceInventory.to_dict (iso : PyDateTime → String) (inv : ResourceInventory) :
    PyVal :=
  .dict [
    ("resources", .list (inv.resources.map (CloudResource.to_dict iso))),
    ("relationships", .list (inv.relationships.map ResourceRelationship.to_dict)),
    ("metadata", .dict inv.metadata),
    ("extraction_time", .str (iso inv.extraction_time)),
    ("extraction_scope", match inv.extraction_scope with
      | some sc => .str sc.value
      | none => .pynone),
    ("scope_identifier", optStr inv.scope_identifier),
    ("provider", match inv.provider with
      | some p => .str p.value
      | none => .pynone)]

/-- Decode every element of a wire list, failing if any element fails. -/
def decodeList (f : PyVal → Option α) : List PyVal → Option (List α)
  | [] => some []
  | v :: vs => do
    let a ← f v
    let as ← decodeList f vs
    some (a :: as)

/-- `ResourceInventory.from_dict` (models.py lines 290–301).  The scope and
provider fields follow the code's truthiness test
(`Enum(data[k]) if data.get(k) else None`), and `extraction_time` is a
mandatory ISO string parsed by `datetime.fromisoformat`. -/
def ResourceInventory.from_dict (parse : String → Option PyDateTime) :
    PyVal → Option ResourceInventory
  | .dict kvs => do
    let .list rvs := dgetD kvs "resources" (.list []) | none
    let resources ← decodeList (CloudResource.from_dict parse) rvs
    let .list relvs := dgetD kvs "relationships" (.list []) | none
    let relationships ← decodeList ResourceRelationship.from_dict relvs
    let metadata ← decodeDict (dgetD kvs "metadata" (.dict []))
    let .str ets := dgetD kvs "extraction_time" .pynone | none
    let extraction_time ← parse ets
    let scv := dgetD kvs "extraction_scope" .pynone
    let extraction_scope ← if scv.truthy then do
        let .str s := scv | none
        let sc ← ExtractionScope.ofValue s
        some (some sc)
      else some none
    let scope_identifier ← decodeOptStr (dgetD kvs "scope_identifier" .pynone)
    let pv := dgetD kvs "provider" .pynone
    let provider ← if pv.truthy then do
        let .str s := pv | none
        let p ← CloudProvider.ofValue s
        some (some p)
      else some none
    some { resources, relationships, metadata, extraction_time,
           extraction_scope, scope_identifier, provider }
  | _ => none

/-! ## Round-trip lemmas for the wire format -/

theorem resourceType_ofValue_value (t : ResourceType) : ResourceType.ofValue t.value = some t := by
  cases t <;> rfl

theorem cloudProvider_ofValue_value (p : CloudProvider) : CloudProvider.ofValue p.value = some p := by
  cases p <;> rfl

theorem relationshipType_ofValue_value (t : RelationshipType) :
    RelationshipType.ofValue t.value = some t := by
  cases t <;> rfl

theorem extractionScope_ofValue_value (sc : ExtractionScope) :
    ExtractionScope.ofValue sc.value = some sc := by
  cases sc <;> rfl

theorem decodeOptStr_optStr (o : Option String) : decodeOptStr (optStr o) = some o := by
  cases o <;> rfl

theorem decodeTags_encodeTags (ts : List (String × String)) :
    decodeTags (encodeTags ts) = some ts := by
  induction ts with
  | nil => rfl
  | cons p ts ih =>
      simp only [encodeTags, decodeTags, List.map_cons, List.foldr_cons] at ih ⊢
      rw [ih]

theorem decodeOptTime_optStr (iso : PyDateTime → String) (parse : String → Option PyDateTime)
    (hinv : ∀ d, parse (iso d) = some d)
    (hnoZ : ∀ d, pyReplaceChar (iso d) 'Z' "+00:00" = iso d)
    (o : Option PyDateTime) :
    decodeOptTime parse (optStr (o.map iso)) = some o := by
  cases o with
  | none => rfl
  | some d => simp [decodeOptTime, optStr, hnoZ d, hinv d]

theorem decodeList_map (f : PyVal → Option α) (g : α → PyVal) (xs : List α)
    (h : ∀ x ∈ xs, f (g x) = some x) :
    decodeList f (xs.map g) = some xs := by
  induction xs with
  | nil => rfl
  | cons x xs ih =>
      simp only [List.map_cons, decodeList]
      rw [h x (List.mem_cons_self x xs), ih (fun y hy => h y (List.mem_cons_of_mem x hy))]
      rfl

/-- Round trip of a single resource: `from_dict` undoes `to_dict` for every
resource whose `location` is set (which `__post_init__` guarantees for every
Python-constructed `CloudResource`). -/
theorem cloudResource_from_dict_to_dict (iso : PyDateTime → String)
    (parse : String → Option PyDateTime)
    (hinv : ∀ d, parse (iso d) = some d)
    (hnoZ : ∀ d, pyReplaceChar (iso d) 'Z' "+00:00" = iso d)
    (r : CloudResource) (l : String) (hl : r.location = some l) :
    CloudResource.from_dict parse (CloudResource.to_dict iso r) = some r := by
  simp only [CloudResource.to_dict, CloudResource.from_dict, dgetD, dget, List.find?]
  simp [decodeOptStr_optStr, decodeTags_encodeTags, decodeDict,
    decodeOptTime_optStr iso parse hinv hnoZ,
    resourceType_ofValue_value, cloudProvider_ofValue_value, hl]
  rw [← hl]

/-- Round trip of a single relationship. -/
theorem resourceRelationship_from_dict_to_dict (rel : ResourceRelationship) :
    ResourceRelationship.from_dict rel.to_dict = some rel := by
  simp only [ResourceRelationship.to_dict, ResourceRelationship.from_dict, dgetD, dget,
    List.find?]
  simp [decodeDict, relationshipType_ofValue_value]

theorem extractionScope_value_ne_empty (sc : ExtractionScope) : sc.value ≠ "" := by
  cases sc <;> decide

theorem cloudProvider_value_ne_empty (p : CloudProvider) : p.value ≠ "" := by
  cases p <;> decide

/-- Round trip of a whole inventory. -/
theorem resourceInventory_from_dict_to_dict (iso : PyDateTime → String)
    (parse : String → Option PyDateTime)
    (hinv : ∀ d, parse (iso d) = some d)
    (hnoZ : ∀ d, pyReplaceChar (iso d) 'Z' "+00:00" = iso d)
    (inv : ResourceInventory)
    (hloc : ∀ r ∈ inv.resources, r.location.isSome) :
    ResourceInventory.from_dict parse (ResourceInventory.to_dict iso inv) = some inv := by
  have hres : decodeList (CloudResource.from_dict parse)
      (inv.resources.map (CloudResource.to_dict iso)) = some inv.resources :=
    decodeList_map _ _ _ (fun r hr => by
      obtain ⟨l, hl⟩ := Option.isSome_iff_exists.mp (hloc r hr)
      exact cloudResource_from_dict_to_dict iso parse hinv hnoZ r l hl)
  have hrel : decodeList ResourceRelationship.from_dict
      (inv.relationships.map ResourceRelationship.to_dict) = some inv.relationships :=
    decodeList_map _ _ _ (fun rel _ => resourceRelationship_from_dict_to_dict rel)
  simp only [ResourceInventory.to_dict, ResourceInventory.from_dict, dgetD, dget,
    List.find?]
  cases hsc : inv.extraction_scope with
  | none =>
      cases hp : inv.provider with
      | none =>
          simp [hres, hrel, decodeDict, hinv, decodeOptStr_optStr, PyVal.truthy, hsc, hp]
          rw [← hsc, ← hp]
      | some p =>
          simp [hres, hrel, decodeDict, hinv, decodeOptStr_optStr, PyVal.truthy,
            cloudProvider_value_ne_empty, cloudProvider_ofValue_value, hsc, hp]
          rw [← hsc, ← hp]
  | some sc =>
      cases hp : inv.provider with
      | none =>
          simp [hres, hrel, decodeDict, hinv, decodeOptStr_optStr, PyVal.truthy,
            extractionScope_value_ne_empty, extractionScope_ofValue_value, hsc, hp]
          rw [← hsc, ← hp]
      | some p =>
          simp [hres, hrel, decodeDict, hinv, decodeOptStr_optStr, PyVal.truthy,
            extractionScope_value_ne_empty, extractionScope_ofValue_value,
            cloudProvider_value_ne_empty, cloudProvider_ofValue_value, hsc, hp]
          rw [← hsc, ← hp]

/-! ## `cloudviz/visualization/layouts.py` — layout algorithms

Each `arrange_resources` returns a Python dictionary mapping resource ids to a
per-layout dictionary of attributes; both levels are modelled with the
insertion-ordered association lists above, the attribute dictionaries as
`PyVal.dict` values.  Python `float` arithmetic on the literal constants that
appear in the source (`0.2`, `3.14159`, `360.0`, …) is modelled over `ℚ`;
`math.cos` / `math.sin` (and, for the radial layout, their composition with
`math.radians`) are external collaborators passed in as function parameters. -/

/-- Python's `x or default` on an optional string field (an empty string is
falsy and also falls back to the default). -/
def pyOr (o : Option String) (d : String) : String :=
  match o with
  | some s => if s = "" then d else s
  | none => d

/-- Python truthiness of an optional string (used for `config.get(...)`
values: `None` and `""` are falsy). -/
def pyTruthyStr (o : Option String) : Bool :=
  match o with
  | some s => s ≠ ""
  | none => false

/-- `math.ceil(math.sqrt(n))` for a list length. -/
def ceilSqrt (n : Nat) : Nat :=
  if Nat.sqrt n * Nat.sqrt n = n then Nat.sqrt n else Nat.sqrt n + 1

/-- Python's stable `sorted(l, key=...)`, modelled as a stable insertion sort:
an element is placed before the first element it compares `le` to, so elements
with equal keys keep their input order, exactly as CPython's stable sort. -/
def pySorted (le : α → α → Bool) : List α → List α
  | [] => []
  | x :: xs => pySortedInsert le x (pySorted le xs)
where
  pySortedInsert (le : α → α → Bool) (x : α) : List α → List α
  | [] => [x]
  | y :: ys => if le x y then x :: y :: ys else y :: pySortedInsert le x ys

/-- Lexicographic `≤` on the sort key `(level, category, name)` used by the
hierarchical layout. -/
def hierKeyLE (k1 k2 : Nat × String × String) : Bool :=
  match compare k1.1 k2.1 with
  | .lt => true
  | .gt => false
  | .eq =>
    match compare k1.2.1 k2.2.1 with
    | .lt => true
    | .gt => false
    | .eq => compare k1.2.2 k2.2.2 ≠ .gt

/-- `HierarchicalLayout._build_hierarchy` (layouts.py lines 113–126): one empty
child list per resource id, then — for every relationship whose
`relationship_type.value` equals the literal `'CONTAINS'` — append the target
to the source's child list (`hierarchy[rel.source_id]` raises `KeyError`, i.e.
`.error`, when the source id is not a resource id). -/
def buildHierarchy (resources : List CloudResource)
    (relationships : List ResourceRelationship) :
    Except Unit (List (String × List String)) :=
  let init := resources.foldl (fun acc r => dinsert acc r.id []) []
  relationships.foldlM (fun acc rel =>
    if rel.relationship_type.value == "CONTAINS" then
      match alget acc rel.source_id with
      | some children => .ok (dinsert acc rel.source_id (children ++ [rel.target_id]))
      | none => .error ()
    else .ok acc) init

/-- `HierarchicalLayout._assign_levels` (layouts.py lines 128–160).  The
`while current_nodes:` loop is driven by explicit fuel; every continuing round
visits at least one new node out of the finite universe of keys and children,
so `(number of keys) + (total number of children) + 1` rounds always suffice
and the fuel never runs out on the loop the Python code executes. -/
def assignLevels (hierarchy : List (String × List String)) : List (String × Nat) :=
  let allChildren := hierarchy.foldl (fun acc p => acc ++ p.2) []
  let roots := (hierarchy.map (·.1)).filter (fun n => !allChildren.contains n)
  let fuel := hierarchy.length + allChildren.length + 1
  let levels := go fuel [] [] roots 0
  hierarchy.foldl (fun lv p =>
    if (alget lv p.1).isSome then lv else dinsert lv p.1 0) levels
where
  go (fuel : Nat) (levels : List (String × Nat)) (visited : List String)
      (current : List String) (level : Nat) : List (String × Nat) :=
    match fuel with
    | 0 => levels
    | fuel + 1 =>
      if current.isEmpty then levels
      else
        let step := current.foldl (fun (st : List (String × Nat) × List String × List String) node =>
          let (lv, vis, nxt) := st
          if vis.contains node then st
          else (dinsert lv node level, vis ++ [node],
                nxt ++ (alget hierarchy node).getD [])) (levels, visited, [])
        go fuel step.1 step.2.1 step.2.2 (level + 1)

/-- `HierarchicalLayout._group_by_resource_group` (layouts.py lines 162–175). -/
def groupByResourceGroup (resources : List CloudResource) :
    List (String × List CloudResource) :=
  resources.foldl (fun gs r =>
    let name := pyOr r.resource_group "default"
    match alget gs name with
    | some l => dinsert gs name (l ++ [r])
    | none => gs ++ [(name, [r])]) []

/-- `_group_by_type` (layouts.py lines 496–509 and 622–635): group resources
by `get_category()`. -/
def groupByType (resources : List CloudResource) :
    List (String × List CloudResource) :=
  resources.foldl (fun gs r =>
    let name := r.get_category
    match alget gs name with
    | some l => dinsert gs name (l ++ [r])
    | none => gs ++ [(name, [r])]) []

/-- `HierarchicalLayout._arrange_group_hierarchically` (layouts.py lines
177–209): stable sort by `(level, category, name)`, then per-level position
counters. -/
def arrangeGroupHierarchically (resources : List CloudResource)
    (levels : List (String × Nat)) : List (String × PyVal) :=
  let sortedResources := pySorted
    (fun r1 r2 => hierKeyLE
      ((alget levels r1.id).getD 0, r1.get_category, r1.name)
      ((alget levels r2.id).getD 0, r2.get_category, r2.name)) resources
  (sortedResources.foldl (fun (st : List (String × PyVal) × List (Nat × Nat)) r =>
    let (arrangement, levelPositions) := st
    let level := (alget levels r.id).getD 0
    let pos := (alget levelPositions level).getD 0
    (dinsert arrangement r.id (.dict [
        ("level", .num level),
        ("position", .num pos),
        ("group", .str (pyOr r.resource_group "default")),
        ("category", .str r.get_category)]),
     dinsert levelPositions level (pos + 1))) ([], [])).1

/-- `HierarchicalLayout.arrange_resources` (layouts.py lines 84–111), with the
`group_by_resource_group` configuration flag. -/
def hierarchicalArrange (groupByRG : Bool) (resources : List CloudResource)
    (relationships : List ResourceRelationship) :
    Except Unit (List (String × PyVal)) := do
  let hierarchy ← buildHierarchy resources relationships
  let levels := assignLevels hierarchy
  let groups := if groupByRG then groupByResourceGroup resources
                else [("default", resources)]
  .ok (groups.foldl (fun arr p => dupdate arr (arrangeGroupHierarchically p.2 levels)) [])

/-- `ForceLayout.arrange_resources` (layouts.py lines 401–437): a
deterministic grid placement — `ceil(sqrt(n))` columns, with per-resource
offsets derived from the resource's relationship count modulo 3. -/
def forceArrange (resources : List CloudResource)
    (relationships : List ResourceRelationship) : List (String × PyVal) :=
  let gridSize := ceilSqrt resources.length
  resources.enum.foldl (fun arr (p : Nat × CloudResource) =>
    let i := p.1
    let r := p.2
    let row := i / gridSize
    let col := i % gridSize
    let connectionCount := relationships.countP
      (fun rel => rel.source_id == r.id || rel.target_id == r.id)
    let offsetX : ℚ := (((connectionCount % 3 : Nat) : ℚ) - 1) * (2 / 10)
    let offsetY : ℚ := ((((connectionCount / 3) % 3 : Nat) : ℚ) - 1) * (2 / 10)
    dinsert arr r.id (.dict [
      ("x", .num ((col : ℚ) + offsetX)),
      ("y", .num ((row : ℚ) + offsetY)),
      ("grid_position", .num (i : ℚ)),
      ("connections", .num (connectionCount : ℚ))])) []

/-- `CircularLayout._find_center_resource` (layouts.py lines 279–305): the
configured center if truthy, else the first resource with the maximal incident
relationship count (Python's `max` keeps the first of equal maxima), else the
first resource id, else `""`. -/
def findCenterResource (centerCfg : Option String) (resources : List CloudResource)
    (relationships : List ResourceRelationship) : String :=
  if pyTruthyStr centerCfg then centerCfg.getD "" else
  let counts := resources.foldl (fun acc r => dinsert acc r.id 0) []
  let counts := relationships.foldl (fun acc rel =>
    let acc := match alget acc rel.source_id with
      | some c => dinsert acc rel.source_id (c + 1)
      | none => acc
    match alget acc rel.target_id with
      | some c => dinsert acc rel.target_id (c + 1)
      | none => acc) counts
  match counts with
  | c :: cs => (cs.foldl (fun best p => if p.2 > best.2 then p else best) c).1
  | [] => match resources with
    | r :: _ => r.id
    | [] => ""

/-- `CircularLayout._build_connection_graph` (layouts.py lines 307–320). -/
def buildConnectionGraph (resources : List CloudResource)
    (relationships : List ResourceRelationship) : List (String × List String) :=
  let graph := resources.foldl (fun acc r => dinsert acc r.id []) []
  relationships.foldl (fun g rel =>
    if (alget g rel.source_id).isSome && (alget g rel.target_id).isSome then
      let g := dinsert g rel.source_id ((alget g rel.source_id).getD [] ++ [rel.target_id])
      dinsert g rel.target_id ((alget g rel.target_id).getD [] ++ [rel.source_id])
    else g) graph

/-- `CircularLayout._assign_to_circles` (layouts.py lines 322–347): BFS rings
from the center.  The `while True:` loop is fuel-driven; every continuing round
visits at least one new node out of `{center} ∪ (all adjacency entries)`, so
the fuel below is never exhausted on the loop the Python code executes. -/
def assignToCircles (center : String) (connections : List (String × List String)) :
    List (Nat × List String) :=
  let fuel := connections.foldl (fun n p => n + p.2.length) 0 + 2
  go fuel [(0, [center])] [center] 0
where
  go (fuel : Nat) (circles : List (Nat × List String)) (visited : List String)
      (currentCircle : Nat) : List (Nat × List String) :=
    match fuel with
    | 0 => circles
    | fuel + 1 =>
      let cur := (alget circles currentCircle).getD []
      let step := cur.foldl (fun (st : List String × List String) resource =>
        ((alget connections resource).getD []).foldl (fun (st : List String × List String) connected =>
          if st.2.contains connected then st
          else (st.1 ++ [connected], st.2 ++ [connected])) st) ([], visited)
      if step.1.isEmpty then circles
      else go fuel (circles ++ [(currentCircle + 1, step.1)]) step.2 (currentCircle + 1)

/-- `CircularLayout._arrange_circle` (layouts.py lines 349–372).  `cosF` /
`sinF` stand for `math.cos` / `math.sin`. -/
def arrangeCircle (cosF sinF : ℚ → ℚ) (radiusIncrement : ℚ)
    (resourceIds : List String) (circleIndex : Nat) (totalInCircle : Nat) :
    List (String × PyVal) :=
  let radius := (circleIndex : ℚ) * radiusIncrement
  resourceIds.enum.foldl (fun arr (p : Nat × String) =>
    let i := p.1
    let angle : ℚ := if totalInCircle > 0 then
        (2 * (314159 / 100000) * i) / (totalInCircle : ℚ) else 0
    dinsert arr p.2 (.dict [
      ("circle", .num (circleIndex : ℚ)),
      ("position", .num (i : ℚ)),
      ("radius", .num radius),
      ("angle", .num angle),
      ("x", .num (radius * (if circleIndex = 0 then 1 else cosF angle))),
      ("y", .num (radius * (if circleIndex = 0 then 0 else sinF angle)))])) []

/-- `CircularLayout.arrange_resources` (layouts.py lines 253–277). -/
def circularArrange (cosF sinF : ℚ → ℚ) (centerCfg : Option String)
    (radiusIncrement : ℚ) (resources : List CloudResource)
    (relationships : List ResourceRelationship) : List (String × PyVal) :=
  let center := findCenterResource centerCfg resources relationships
  let connections := buildConnectionGraph resources relationships
  let circles := assignToCircles center connections
  circles.foldl (fun arr p =>
    dupdate arr (arrangeCircle cosF sinF radiusIncrement p.2 p.1 p.2.length)) []

/-- `GridLayout._calculate_columns` (layouts.py lines 511–519): the configured
column count when truthy (a configured `0` is falsy), else `ceil(sqrt(n))`. -/
def calculateColumns (columnsCfg : Option Nat) (resourceCount : Nat) : Nat :=
  match columnsCfg with
  | some c => if c ≠ 0 then c else ceilSqrt resourceCount
  | none => ceilSqrt resourceCount

/-- `GridLayout._arrange_group_in_grid` (layouts.py lines 521–541). -/
def arrangeGroupInGrid (columnsCfg : Option Nat) (resources : List CloudResource)
    (startRow : Nat) : List (String × PyVal) :=
  let columns := calculateColumns columnsCfg resources.length
  resources.enum.foldl (fun arr (p : Nat × CloudResource) =>
    let i := p.1
    let r := p.2
    dinsert arr r.id (.dict [
      ("row", .num ((startRow + i / columns : Nat) : ℚ)),
      ("column", .num ((i % columns : Nat) : ℚ)),
      ("grid_position", .num (i : ℚ)),
      ("group", .str r.get_category)])) []

/-- `GridLayout.arrange_resources` (layouts.py lines 466–494).
`math.ceil(len/columns)` raises `ZeroDivisionError` (modelled `.error`) when a
group is empty and no column count is configured — reachable only with
`group_by_type=False` and an empty resource list. -/
def gridArrange (columnsCfg : Option Nat) (groupByTypeCfg : Bool)
    (resources : List CloudResource) (_relationships : List ResourceRelationship) :
    Except Unit (List (String × PyVal)) :=
  let groups := if groupByTypeCfg then groupByType resources
                else [("all", resources)]
  let res : Except Unit (List (String × PyVal) × Nat) := groups.foldlM
    (fun (st : List (String × PyVal) × Nat) (p : String × List CloudResource) => do
      let (arrangement, currentRow) := st
      let ga := arrangeGroupInGrid columnsCfg p.2 currentRow
      let columns := calculateColumns columnsCfg p.2.length
      if columns = 0 then Except.error () else
      let rowsUsed := (p.2.length + columns - 1) / columns
      Except.ok (dupdate arrangement ga, currentRow + rowsUsed + 1)) ([], 0)
  res.map (·.1)

/-- `RadialLayout._find_center_resource` (layouts.py lines 609–620). -/
def radialFindCenter (centerCfg : Option String) (resources : List CloudResource) :
    String :=
  if pyTruthyStr centerCfg then centerCfg.getD "" else
  match resources with
  | r :: _ => r.id
  | [] => ""

/-- `RadialLayout._arrange_group_radially` (layouts.py lines 637–666).
`cosDegF` / `sinDegF` stand for `math.cos(math.radians(·))` /
`math.sin(math.radians(·))`. -/
def arrangeGroupRadially (cosDegF sinDegF : ℚ → ℚ) (radiusBase angleIncrementCfg : ℚ)
    (resources : List CloudResource) (startAngle angleSpan : ℚ) :
    List (String × PyVal) :=
  let radius := radiusBase
  let angleIncrement :=
    min (if resources.length > 0 then angleSpan / (resources.length : ℚ) else 0)
      angleIncrementCfg
  resources.enum.foldl (fun arr (p : Nat × CloudResource) =>
    let angle := startAngle + (p.1 : ℚ) * angleIncrement
    dinsert arr p.2.id (.dict [
      ("x", .num (radius * cosDegF angle)),
      ("y", .num (radius * sinDegF angle)),
      ("radius", .num radius),
      ("angle", .num angle),
      ("group", .str p.2.get_category),
      ("position", .num ((p.1 : Nat) : ℚ))])) []

/-- `RadialLayout.arrange_resources` (layouts.py lines 572–607). -/
def radialArrange (cosDegF sinDegF : ℚ → ℚ) (centerCfg : Option String)
    (angleIncrementCfg radiusBase : ℚ) (resources : List CloudResource)
    (_relationships : List ResourceRelationship) : List (String × PyVal) :=
  let center := radialFindCenter centerCfg resources
  let otherResources := resources.filter (fun r => r.id ≠ center)
  let grouped := groupByType otherResources
  let arrangement := dinsert ([] : List (String × PyVal)) center (.dict [
    ("x", .num 0), ("y", .num 0), ("radius", .num 0), ("angle", .num 0),
    ("is_center", .pybool true)])
  let anglePerGroup : ℚ := if grouped.isEmpty then 0 else 360 / (grouped.length : ℚ)
  (grouped.foldl (fun (st : List (String × PyVal) × ℚ) p =>
    (dupdate st.1 (arrangeGroupRadially cosDegF sinDegF radiusBase angleIncrementCfg
        p.2 st.2 anglePerGroup),
     st.2 + anglePerGroup)) (arrangement, 0)).1

/-! ## `cloudviz/visualization/engines/mermaid.py` — labels and nodes -/

/-- `MermaidEngine._truncate_label` (mermaid.py lines 494–498): Python `len`
and slicing over code points (`max_label_length` defaults to 20 and is always
≥ 3 in the shipped configurations). -/
def truncateLabel (maxLabelLength : Nat) (text : String) : String :=
  if text.data.length ≤ maxLabelLength then text
  else String.mk (text.data.take (maxLabelLength - 3)) ++ "..."

/-- `MermaidEngine._create_resource_label` (mermaid.py lines 296–313): the
truncated name, optionally followed by `(category)` and — when the region
string is truthy — `[region]`, joined with `<br/>`.  No character of the
resource name is escaped or filtered. -/
def createResourceLabel (includeResourceTypes includeRegions : Bool)
    (maxLabelLength : Nat) (r : CloudResource) : String :=
  let parts := [truncateLabel maxLabelLength r.name]
  let parts := if includeResourceTypes then parts ++ ["(" ++ r.get_category ++ ")"]
               else parts
  let parts := if includeRegions && r.region ≠ "" then parts ++ ["[" ++ r.region ++ "]"]
               else parts
  pyJoin "<br/>" parts

/-- `MermaidEngine._get_node_shape` (mermaid.py lines 315–343): wrap the label
in the category-specific Mermaid shape delimiters; in the `flowchart` style the
label is surrounded by double quotes with no escaping applied to the label
text. -/
def getNodeShape (includeResourceTypes includeRegions : Bool) (maxLabelLength : Nat)
    (r : CloudResource) (style : String) : String :=
  let label := createResourceLabel includeResourceTypes includeRegions maxLabelLength r
  let shapeMap : List (String × String) :=
    if style == "flowchart" then
      [("Compute", "[\"" ++ label ++ "\"]"),
       ("Storage", "[(\"" ++ label ++ "\")]"),
       ("Networking", "\x7b\"" ++ label ++ "\"\x7d"),
       ("Database", "[(\"" ++ label ++ "\")]"),
       ("Security", "\x7b\x7b\"" ++ label ++ "\"\x7d\x7d"),
       ("Management", "[(\"" ++ label ++ "\")]"),
       ("Other", "[\"" ++ label ++ "\"]")]
    else
      [("Compute", "[" ++ label ++ "]"),
       ("Storage", "(" ++ label ++ ")"),
       ("Networking", "\x7b" ++ label ++ "\x7d"),
       ("Database", "(" ++ label ++ ")"),
       ("Security", "\x7b\x7b" ++ label ++ "\x7d\x7d"),
       ("Management", "(" ++ label ++ ")"),
       ("Other", "[" ++ label ++ "]")]
  (alget shapeMap r.get_category).getD ("[\"" ++ label ++ "\"]")

/-- The mutable node-id state of a `MermaidEngine` render
(`node_id_counter` / `node_id_map`, reset at the start of each render). -/
structure MermaidState where
  node_id_counter : Nat
  node_id_map : List (String × String)

/-- `MermaidEngine._get_node_id` (mermaid.py lines 482–488). -/
def getNodeId (st : MermaidState) (resourceId : String) : String × MermaidState :=
  match alget st.node_id_map resourceId with
  | some n => (n, st)
  | none =>
    let c := st.node_id_counter + 1
    let n := "node" ++ toString c
    (n, { node_id_counter := c, node_id_map := dinsert st.node_id_map resourceId n })

/-- `MermaidEngine._create_resource_node` (mermaid.py lines 275–294). -/
def createResourceNode (includeResourceTypes includeRegions : Bool)
    (maxLabelLength : Nat) (st : MermaidState) (r : CloudResource)
    (indent style : String) : String × MermaidState :=
  let (nodeId, st) := getNodeId st r.id
  let label := createResourceLabel includeResourceTypes includeRegions maxLabelLength r
  let shape := getNodeShape includeResourceTypes includeRegions maxLabelLength r style
  (if style == "graph" then indent ++ nodeId ++ "[" ++ label ++ "]"
   else indent ++ nodeId ++ shape, st)

/-! ## `cloudviz/core/base.py` / engines — option validation and render prologue -/

/-- `VisualizationEngine.validate_options` (base.py lines 213–239): the format
must be among the supported formats; a theme or layout is checked against the
supported sets only when it is truthy (Python's `if theme and theme not in …`,
so `None` and the empty string skip the check). -/
def validate_options (supportedFormats supportedThemes supportedLayouts : List String)
    (outputFormat : String) (theme layout : Option String) : Bool :=
  if !supportedFormats.contains outputFormat then false
  else if pyTruthyStr theme && !supportedThemes.contains (theme.getD "") then false
  else if pyTruthyStr layout && !supportedLayouts.contains (layout.getD "") then false
  else true

/-- The observable side effects of a render call. -/
inductive RenderEffect where
  | generateDiagramText | writeTempFile | invokeExternalProcess
deriving DecidableEq

/-- The error outcomes of a render call.  `validationError` is the
`ValueError("Invalid rendering options: …")` the engines raise when
`validate_options` returns false (the spec's `ValidationError`);
`runtimeError` stands for the later failure modes (missing CLI, converter
failure, timeout). -/
inductive RenderError where
  | validationError | runtimeError
deriving DecidableEq

/-- The shared prologue of `MermaidEngine.render` (mermaid.py lines 63–70),
`GraphvizEngine.render` (graphviz.py lines 69–76) and `ImageEngine.render`
(image.py lines 73–79): validate the options — raising the validation error
with no work performed when they fail — then substitute the defaults
(`theme or 'professional'`, `layout or 'hierarchical'`) and run the engine's
actual rendering body.  The body is the rest of the respective `render`
method; its effect trace records any diagram-text generation, temp-file
creation and external-process invocation it performs. -/
def engineRender (supportedFormats supportedThemes supportedLayouts : List String)
    (body : String → String → String → List RenderEffect × Except RenderError String)
    (outputFormat : String) (theme layout : Option String) :
    List RenderEffect × Except RenderError String :=
  if !(validate_options supportedFormats supportedThemes supportedLayouts
        outputFormat theme layout) then
    ([], .error .validationError)
  else
    body outputFormat (pyOr theme "professional") (pyOr layout "hierarchical")

/-- `MermaidEngine.__init__` (mermaid.py lines 23–25): advertised formats. -/
def mermaidSupportedFormats : List String := ["mermaid", "md"]

def mermaidSupportedThemes : List String :=
  ["professional", "dark", "light", "minimal", "colorful"]

def mermaidSupportedLayouts : List String :=
  ["hierarchical", "flowchart", "graph", "mindmap", "timeline"]

/-- `GraphvizEngine.__init__` (graphviz.py lines 23–25): advertised formats. -/
def graphvizSupportedFormats : List String := ["dot", "gv"]

def graphvizSupportedThemes : List String :=
  ["professional", "dark", "light", "minimal", "colorful"]

def graphvizSupportedLayouts : List String :=
  ["hierarchical", "circular", "force", "grid", "radial"]

/-- `ImageEngine.__init__` (image.py lines 26–28): advertised formats. -/
def imageSupportedFormats : List String := ["png", "svg", "pdf", "jpg", "jpeg"]

def imageSupportedThemes : List String :=
  ["professional", "dark", "light", "minimal", "colorful"]

def imageSupportedLayouts : List String :=
  ["hierarchical", "circular", "force", "grid", "radial"]

/-! ## `cloudviz/providers/azure/extractor.py` — relationship inference

`AzureResource` (providers/azure/models.py lines 86–99) extends `CloudResource`;
only the fields the relationship-inference code reads are carried here.
`AzureResourceType` (lines 12–82) is a 45-member enum of Azure type strings;
the extractor compares a resource's type against exactly five members, so the
embedding keeps those five and collapses every other member — and the `OTHER`
fallback an unknown string maps to — into `otherA`.  The collapse is
behaviour-preserving: no function under verification distinguishes two
non-referenced members. -/

inductive AzureResourceType where
  | resource_group | virtual_network | subnet | network_interface
  | network_security_group
  | otherA
deriving DecidableEq

/-- `AzureResourceType(s)` wrapped in `get_azure_resource_type`'s
`try/except ValueError: return AzureResourceType.OTHER` (models.py lines
140–143), under the collapse described above. -/
def azureResourceTypeOfString (s : String) : AzureResourceType :=
  if s == "Microsoft.Resources/resourceGroups" then .resource_group
  else if s == "Microsoft.Network/virtualNetworks" then .virtual_network
  else if s == "Microsoft.Network/virtualNetworks/subnets" then .subnet
  else if s == "Microsoft.Network/networkInterfaces" then .network_interface
  else if s == "Microsoft.Network/networkSecurityGroups" then .network_security_group
  else .otherA

/-- The fields of `AzureResource` read by `extract_resource_relationships` and
its helpers.  `azure_type_attr` models the `_azure_type` attribute installed by
`set_azure_resource_type`, when present. -/
structure AzureResource where
  id : String
  name : String
  properties : List (String × PyVal) := []
  metadata : List (String × PyVal) := []
  resource_group_name : Option String := none
  managed_by : Option String := none
  azure_type_attr : Option AzureResourceType := none

/-- `AzureResource.get_azure_resource_type` (providers/azure/models.py lines
132–145): the `_azure_type` attribute when set; otherwise the type string from
`properties['type'] or metadata['type']` (Python `or`: the right operand when
the left is falsy), parsed with the `OTHER` fallback; `None` when neither is
truthy. -/
def AzureResource.get_azure_resource_type (r : AzureResource) :
    Option AzureResourceType :=
  match r.azure_type_attr with
  | some t => some t
  | none =>
    let pv := dgetD r.properties "type" .pynone
    let tv := if pv.truthy then pv else dgetD r.metadata "type" .pynone
    if tv.truthy then
      some (match tv with
        | .str s => azureResourceTypeOfString s
        | _ => .otherA)
    else none

/-- Python iteration `for x in v`: elements of a list, keys of a dict,
one-character strings of a string; anything else raises `TypeError`
(`.error`). -/
def pyIter : PyVal → Except Unit (List PyVal)
  | .list xs => .ok xs
  | .dict kvs => .ok (kvs.map (fun p => PyVal.str p.1))
  | .str s => .ok (s.data.map (fun c => PyVal.str (String.mk [c])))
  | _ => .error ()

/-- Append a value to the list stored under a key, creating the binding when
absent (`d.setdefault(k, []).append(v)` as spelled out in the source). -/
def dappend [BEq κ] (gs : List (κ × List α)) (k : κ) (v : α) : List (κ × List α) :=
  match alget gs k with
  | some l => dinsert gs k (l ++ [v])
  | none => gs ++ [(k, [v])]

/-- `AzureResourceExtractor._extract_containment_relationships` (extractor.py
lines 563–591): group non-resource-group resources by `resource_group_name`
(truthiness-guarded), collect resource-group resources by name, then emit a
`Contains` edge from each found resource group to each of its members. -/
def extractContainmentRelationships (resources : List AzureResource) :
    List ResourceRelationship :=
  let st := resources.foldl
    (fun (st : List (String × List AzureResource) × List (String × AzureResource)) r =>
      if r.get_azure_resource_type == some .resource_group then
        (st.1, dinsert st.2 r.name r)
      else if pyTruthyStr r.resource_group_name then
        (dappend st.1 (r.resource_group_name.getD "") r, st.2)
      else st) ([], [])
  st.1.flatMap (fun p =>
    match alget st.2 p.1 with
    | some rgResource => p.2.map (fun r =>
        { source_id := rgResource.id, target_id := r.id,
          relationship_type := RelationshipType.contains,
          properties := [("type", PyVal.str "resource_group_containment")] })
    | none => [])

/-- The `parts.index('subnets')` call in `_extract_network_relationships`
raises `ValueError` exactly when the subnet id contains `/virtualNetworks/`
but splits to no `subnets` part. -/
def subnetIndexError (subnet : AzureResource) : Bool :=
  strContains subnet.id "/virtualNetworks/" &&
    !((pySplitChar subnet.id '/').contains "subnets")

/-- The VNet→Subnet `Contains` edges of `_extract_network_relationships`
(extractor.py lines 607–618) for one subnet, on the non-raising path. -/
def vnetSubnetEdges (resourceLookup : List String) (subnet : AzureResource) :
    List ResourceRelationship :=
  if strContains subnet.id "/virtualNetworks/" then
    let parts := pySplitChar subnet.id '/'
    if parts.contains "subnets" then
      let vnetId := pyJoin "/" (parts.takeWhile (fun p => p ≠ "subnets"))
      if resourceLookup.contains vnetId then
        [{ source_id := vnetId, target_id := subnet.id,
           relationship_type := RelationshipType.contains,
           properties := [("type", PyVal.str "vnet_subnet_containment")] }]
      else []
    else []
  else []

/-- The iterable of `nic.properties.get('ipConfigurations', [])`, guarded by
the truthiness of `nic.properties` (a falsy properties dict skips the NIC). -/
def nicIpConfigs (nic : AzureResource) : Except Unit (List PyVal) :=
  if (PyVal.dict nic.properties).truthy then
    pyIter (dgetD nic.properties "ipConfigurations" (.list []))
  else .ok []

/-- `ip_config.get('subnet', {}).get('id')` with the two `isinstance(…, dict)`
guards of extractor.py lines 625–628; a non-dict at either level yields the
falsy `None` (the loop then skips the entry). -/
def ipConfigSubnetId (ipConfig : PyVal) : PyVal :=
  match ipConfig with
  | .dict cfg =>
    match dgetD cfg "subnet" (.dict []) with
    | .dict sr => dgetD sr "id" .pynone
    | _ => .pynone
  | _ => .pynone

/-- `subnet_id in resource_lookup` raises `TypeError` when the value is an
unhashable (list or dict) truthy object. -/
def nicConfigError (ipConfig : PyVal) : Bool :=
  let sid := ipConfigSubnetId ipConfig
  sid.truthy && (match sid with | .list _ => true | .dict _ => true | _ => false)

/-- Does processing this NIC raise (`TypeError` from iterating a non-iterable
`ipConfigurations` value, or from an unhashable subnet id)? -/
def nicErr (nic : AzureResource) : Bool :=
  match nicIpConfigs nic with
  | .error _ => true
  | .ok items => items.any nicConfigError

/-- The NIC→Subnet `ConnectsTo` edges of `_extract_network_relationships`
(extractor.py lines 620–635) for one NIC, on the non-raising path. -/
def nicEdges (resourceLookup : List String) (nic : AzureResource) :
    List ResourceRelationship :=
  match nicIpConfigs nic with
  | .error _ => []
  | .ok items => items.flatMap (fun ipConfig =>
      let sid := ipConfigSubnetId ipConfig
      if sid.truthy then
        match sid with
        | .str s =>
          if resourceLookup.contains s then
            [{ source_id := nic.id, target_id := s,
               relationship_type := RelationshipType.connects_to,
               properties := [("type", PyVal.str "nic_subnet_connection")] }]
          else []
        | _ => []
      else [])

/-- `AzureResourceExtractor._extract_network_relationships` (extractor.py
lines 593–637).  The Python loops raise (and discard the local edge list) on
the first `ValueError`/`TypeError`; since that local list is never observed on
the raising path, the function is rendered as: error exactly when some subnet
or NIC raises, else the full edge list in loop order. -/
def extractNetworkRelationships (resources : List AzureResource)
    (resourceLookup : List String) : Except Unit (List ResourceRelationship) :=
  let subnets := resources.filter
    (fun r => r.get_azure_resource_type == some .subnet)
  let nics := resources.filter
    (fun r => r.get_azure_resource_type == some .network_interface)
  if subnets.any subnetIndexError || nics.any nicErr then .error ()
  else .ok (subnets.flatMap (vnetSubnetEdges resourceLookup) ++
            nics.flatMap (nicEdges resourceLookup))

mutual
/-- The inner `extract_resource_ids(obj, path)` of
`AzureResourceExtractor._find_resource_dependencies` (extractor.py lines
685–694): over a dict, a value under a key named `id` or `resourceId` that is
a string containing `/subscriptions/` is collected, every other value is
recursed into; over a list, every element is recursed into; scalars contribute
nothing.  The walk keeps no visited set: it is a plain structural recursion
over the (finite, acyclic) tree the embedding can represent. -/
def extractResourceIds : PyVal → List String
  | .dict kvs => extractResourceIdsKVs kvs
  | .list xs => extractResourceIdsList xs
  | _ => []

def extractResourceIdsList : List PyVal → List String
  | [] => []
  | x :: xs => extractResourceIds x ++ extractResourceIdsList xs

def extractResourceIdsKVs : List (String × PyVal) → List String
  | [] => []
  | (k, v) :: kvs =>
    (if (k == "id" || k == "resourceId") &&
        (match v with | .str s => strContains s "/subscriptions/" | _ => false) then
      (match v with | .str s => [s] | _ => [])
     else extractResourceIds v) ++ extractResourceIdsKVs kvs
end

/-- `AzureResourceExtractor._find_resource_dependencies` (extractor.py lines
681–697): collect the referenced ids, then deduplicate with
`list(set(dependencies))`.  A CPython set iterates in an unspecified
(hash-dependent) order; the embedding fixes the first-occurrence order, which
agrees on membership and on freedom from duplicates. -/
def findResourceDependencies (properties : List (String × PyVal)) : List String :=
  dedupKeepFirst (extractResourceIds (.dict properties))

/-- `AzureResourceExtractor._extract_dependency_relationships` (extractor.py
lines 639–660): for every resource with truthy properties, one `DependsOn`
edge per discovered id that is a known resource id.  There is no comparison
against the resource's own id. -/
def extractDependencyRelationships (resources : List AzureResource)
    (resourceLookup : List String) : List ResourceRelationship :=
  resources.flatMap (fun r =>
    if (PyVal.dict r.properties).truthy then
      (findResourceDependencies r.properties).filterMap (fun depId =>
        if resourceLookup.contains depId then
          some { source_id := r.id, target_id := depId,
                 relationship_type := RelationshipType.depends_on,
                 properties := [("type", PyVal.str "resource_dependency")] }
        else none)
    else [])

/-- `AzureResourceExtractor._extract_management_relationships` (extractor.py
lines 662–679). -/
def extractManagementRelationships (resources : List AzureResource)
    (resourceLookup : List String) : List ResourceRelationship :=
  resources.flatMap (fun r =>
    if pyTruthyStr r.managed_by && resourceLookup.contains (r.managed_by.getD "") then
      [{ source_id := r.id, target_id := r.managed_by.getD "",
         relationship_type := RelationshipType.managed_by,
         properties := [("type", PyVal.str "managed_by_relationship")] }]
    else [])

/-- `AzureResourceExtractor.extract_resource_relationships` (extractor.py
lines 527–561): build the id lookup, then run the four passes inside one
`try`; an exception from the network pass (the only raising pass) is caught
and the edges collected so far — the containment edges — are returned. -/
def extract_resource_relationships (resources : List AzureResource) :
    List ResourceRelationship :=
  let resourceLookup := resources.map (·.id)
  let containment := extractContainmentRelationships resources
  match extractNetworkRelationships resources resourceLookup with
  | .error _ => containment
  | .ok network =>
    containment ++ network ++ extractDependencyRelationships resources resourceLookup
      ++ extractManagementRelationships resources resourceLookup

/-! ## Shared helper lemmas -/

theorem splitOnChar_not_mem (c : Char) (l : List Char) (h : c ∉ l) :
    splitOnChar c l = [l] := by
  induction l with
  | nil => rfl
  | cons x xs ih =>
      have hx : ¬ (x == c) = true := by
        simp only [beq_iff_eq]
        rintro rfl
        exact h (List.mem_cons_self x xs)
      simp only [splitOnChar, hx]
      rw [ih (fun hm => h (List.mem_cons_of_mem x hm))]
      simp

theorem dedupKeepFirst_nodup [DecidableEq α] (l : List α) :
    (dedupKeepFirst (α := α) l).Nodup := by
  induction l with
  | nil => simp [dedupKeepFirst]
  | cons x xs ih =>
      simp only [dedupKeepFirst, List.nodup_cons]
      constructor
      · intro hmem
        have := List.of_mem_filter hmem
        simp at this
      · exact ih.filter _

theorem mem_dedupKeepFirst [DecidableEq α] {l : List α} {a : α}
    (h : a ∈ dedupKeepFirst l) : a ∈ l := by
  induction l with
  | nil => simpa [dedupKeepFirst] using h
  | cons x xs ih =>
      simp only [dedupKeepFirst, List.mem_cons] at h
      rcases h with rfl | h
      · exact List.mem_cons_self _ _
      · exact List.mem_cons_of_mem _ (ih (List.mem_of_mem_filter h))

theorem mem_dinsert [BEq κ] {kvs : List (κ × α)} {k : κ} {v : α} {p : κ × α}
    (h : p ∈ dinsert kvs k v) : p = (k, v) ∨ p ∈ kvs := by
  unfold dinsert at h
  split at h
  · obtain ⟨q, hq, hpq⟩ := List.mem_map.mp h
    by_cases hk : (q.1 == k) = true
    · rw [if_pos hk] at hpq
      exact Or.inl hpq.symm
    · rw [if_neg hk] at hpq
      exact Or.inr (hpq ▸ hq)
  · rcases List.mem_append.mp h with h | h
    · exact Or.inr h
    · exact Or.inl (List.mem_singleton.mp h)

theorem alget_mem [BEq κ] [LawfulBEq κ] {kvs : List (κ × α)} {k : κ} {v : α}
    (h : alget kvs k = some v) : (k, v) ∈ kvs := by
  unfold alget at h
  cases hf : kvs.find? (fun p => p.1 == k) with
  | none => rw [hf] at h; simp at h
  | some q =>
      rw [hf] at h
      have h2 : q.2 = v := by simpa using h
      have hq := List.find?_some hf
      have hmem := List.mem_of_find?_eq_some hf
      simp only [beq_iff_eq] at hq
      have : q = (k, v) := by
        cases q
        simp only at hq h2
        simp [hq, h2]
      exact this ▸ hmem

theorem mem_of_contains {l : List String} {a : String} (h : l.contains a = true) :
    a ∈ l := by simpa using h

/-! ## Witness collaborators for the serialisation round trip -/

/-- A concrete stand-in for `datetime.isoformat` used by witnesses: the stamp
in unary.  (Any injective encoding whose output avoids `'Z'` satisfies the
round-trip hypotheses.) -/
def unaryIso (d : PyDateTime) : String :=
  String.mk (List.replicate d.stamp 'x')

/-- The matching stand-in for `datetime.fromisoformat`. -/
def unaryParse (s : String) : Option PyDateTime :=
  if s.data.all (fun c => c == 'x') then some ⟨s.data.length⟩ else none

theorem unaryParse_unaryIso : ∀ d, unaryParse (unaryIso d) = some d := by
  intro d
  simp [unaryIso, unaryParse]

theorem unaryIso_noZ : ∀ d, pyReplaceChar (unaryIso d) 'Z' "+00:00" = unaryIso d := by
  intro d
  have hz : ('Z' : Char) ∉ List.replicate d.stamp 'x' := by
    intro h
    have := List.eq_of_mem_replicate h
    simp at this
  simp only [pyReplaceChar, unaryIso]
  rw [splitOnChar_not_mem _ _ hz]
  rfl

/-- A concrete inventory exercising every serialised field. -/
def wRes : CloudResource :=
  { id := "res-1", name := "vm", resource_type := .virtual_machine,
    provider := .azure, region := "westeurope",
    metadata := [("k", .num 1)], tags := [("env", "dev")],
    properties := [("nested", .dict [("id", .str "x")])],
    created_time := some ⟨3⟩, location := some "westeurope" }

def wRel : ResourceRelationship :=
  { source_id := "res-1", target_id := "res-2",
    relationship_type := .contains, strength := 1/2, bidirectional := true }

def wInv : ResourceInventory :=
  { resources := [wRes], relationships := [wRel], metadata := [("m", .str "v")],
    extraction_time := ⟨5⟩, extraction_scope := some .subscription,
    scope_identifier := some "sub-1", provider := some .azure }

theorem wInv_locations : ∀ r ∈ wInv.resources, r.location.isSome := by
  intro r hr
  simp only [wInv, List.mem_singleton] at hr
  subst hr
  rfl

/-! ## Claims -/

/-- C1: for every inventory whose resources and relationships use only the
defined enumeration values (enforced here by the typed embedding) and whose
resources have a set `location` (guaranteed by `__post_init__`),
`ResourceInventory.from_dict` is a left inverse of `ResourceInventory.to_dict`:
enums are encoded as their `.value` strings, timestamps via the
`isoformat`/`fromisoformat` pair (any left-invertible, `'Z'`-free pair, as the
standard library's is), and the `metadata`/`properties`/`tags` maps pass
through unchanged. -/
theorem C1_from_dict_to_dict_round_trip (iso : PyDateTime → String)
    (parse : String → Option PyDateTime)
    (hinv : ∀ d, parse (iso d) = some d)
    (hnoZ : ∀ d, pyReplaceChar (iso d) 'Z' "+00:00" = iso d)
    (inv : ResourceInventory)
    (hloc : ∀ r ∈ inv.resources, r.location.isSome) :
    ResourceInventory.from_dict parse (ResourceInventory.to_dict iso inv) = some inv :=
  resourceInventory_from_dict_to_dict iso parse hinv hnoZ inv hloc

/-- Witness for C1 at a concrete inventory and a concrete
`isoformat`/`fromisoformat` pair. -/
theorem C1_from_dict_to_dict_round_trip_witness :
    ResourceInventory.from_dict unaryParse (ResourceInventory.to_dict unaryIso wInv)
      = some wInv :=
  C1_from_dict_to_dict_round_trip unaryIso unaryParse unaryParse_unaryIso
    unaryIso_noZ wInv wInv_locations

/-- The resource `A` of the two-resource containment example. -/
def resA2 : CloudResource :=
  { id := "a", name := "a", resource_type := .resource_group, provider := .azure,
    region := "r" }

/-- The resource `B` of the two-resource containment example. -/
def resB2 : CloudResource :=
  { id := "b", name := "b", resource_type := .virtual_machine, provider := .azure,
    region := "r" }

/-- The `Contains` edge `A→B` of the two-resource example. -/
def relAB2 : ResourceRelationship :=
  { source_id := "a", target_id := "b", relationship_type := .contains }

/-- C2: the hierarchical layout on two resources `A`, `B` with one `Contains`
edge `A→B`.  `_build_hierarchy` compares `rel.relationship_type.value` — the
lowercase string `"contains"` — against the literal `'CONTAINS'`, so the edge
is never registered: the hierarchy stays childless, both resources are roots,
and `_assign_levels` gives `B` level 0, not the level 1 the claim requires. -/
theorem C2_hierarchical_levels_on_contains_example :
    buildHierarchy [resA2, resB2] [relAB2] = Except.ok [("a", []), ("b", [])] ∧
    assignLevels [("a", []), ("b", [])] = [("a", 0), ("b", 0)] ∧
    RelationshipType.contains.value = "contains" :=
  ⟨rfl, rfl, rfl⟩

/-- C3 counterexample: `add_resource` accepts a second resource with an
already-present id — no `DuplicateIdError`, and the duplicate is stored. -/
theorem C3_counterexample_duplicate_id_accepted :
    (((ResourceInventory.add_resource
        (ResourceInventory.add_resource { extraction_time := ⟨0⟩ } resA2)
        resA2).resources).map (·.id)) = ["a", "a"] :=
  rfl

/-- C3 (amended): `add_resource` appends unconditionally; it never fails, it
performs no duplicate-id check, and adding a resource whose id is already
present increases the number of stored resources with that id. -/
theorem C3_add_resource_appends_unconditionally :
    ∀ (inv : ResourceInventory) (r : CloudResource),
      (inv.add_resource r).resources = inv.resources ++ [r] ∧
      ((inv.add_resource r).resources.map (·.id)).count r.id
        = (inv.resources.map (·.id)).count r.id + 1 := by
  intro inv r
  refine ⟨rfl, ?_⟩
  simp [ResourceInventory.add_resource]

/-- C4 counterexample: the dataclass constructor stores an out-of-enumeration
kind verbatim — construction succeeds, no `InvalidKindError` exists, even
though `"bogus_kind"` is not the value of any of the eight members. -/
theorem C4_counterexample_construction_unchecked :
    mkResourceRelationshipDyn "a" "b" "bogus_kind" =
      { source_id := "a", target_id := "b", relationship_type := "bogus_kind" } ∧
    RelationshipType.ofValue "bogus_kind" = none :=
  ⟨rfl, rfl⟩

/-- C4 (amended): the kind is validated against the closed set of eight values
only on the deserialisation path: `RelationshipType(s)` accepts exactly the
eight `.value` strings, and `ResourceRelationship.from_dict` fails on a wire
dictionary with an unknown kind, while the dataclass constructor itself
performs no check. -/
theorem C4_kind_checked_only_on_deserialisation :
    (∀ t : RelationshipType, RelationshipType.ofValue t.value = some t) ∧
    ResourceRelationship.from_dict (.dict [("source_id", .str "a"),
       ("target_id", .str "b"), ("relationship_type", .str "bogus_kind"),
       ("properties", .dict []), ("metadata", .dict []), ("strength", .num 1),
       ("bidirectional", .pybool false)]) = none ∧
    mkResourceRelationshipDyn "a" "b" "bogus_kind" =
      { source_id := "a", target_id := "b", relationship_type := "bogus_kind" } :=
  ⟨relationshipType_ofValue_value, rfl, rfl⟩

/-- A resource whose `properties` tree nests its own id. -/
def resC6 : AzureResource :=
  { id := "/subscriptions/s/a", name := "a",
    properties := [("ref", .dict [("id", .str "/subscriptions/s/a")])] }

/-- C6 counterexample: a resource whose properties nest its own id receives a
self-loop `DependsOn` edge — `_extract_dependency_relationships` checks the
discovered id against the lookup but never against the emitting resource's own
id. -/
theorem C6_counterexample_self_loop_emitted :
    extract_resource_relationships [resC6] =
      [{ source_id := "/subscriptions/s/a", target_id := "/subscriptions/s/a",
         relationship_type := .depends_on,
         properties := [("type", .str "resource_dependency")] }] :=
  rfl

theorem filterMap_guard_sublist (p : α → Bool) (l : List α) :
    (l.filterMap (fun d => if p d then some d else none)).Sublist l := by
  induction l with
  | nil => simp
  | cons x xs ih =>
      by_cases h : p x = true
      · simpa [h] using ih.cons₂ x
      · simpa [h] using ih.cons x

/-- The per-id guard used by the dependency pass. -/
def depEdgeFor (resourceLookup : List String) (rid : String) (depId : String) :
    Option ResourceRelationship :=
  if resourceLookup.contains depId then
    some { source_id := rid, target_id := depId,
           relationship_type := RelationshipType.depends_on,
           properties := [("type", PyVal.str "resource_dependency")] }
  else none

theorem extractDependencyRelationships_eq (resources : List AzureResource)
    (resourceLookup : List String) :
    extractDependencyRelationships resources resourceLookup =
      resources.flatMap (fun r =>
        if (PyVal.dict r.properties).truthy then
          (findResourceDependencies r.properties).filterMap
            (depEdgeFor resourceLookup r.id)
        else []) :=
  rfl

theorem targets_of_depEdges (resourceLookup : List String) (rid : String)
    (deps : List String) :
    ((deps.filterMap (depEdgeFor resourceLookup rid)).map (·.target_id)) =
      deps.filterMap (fun d => if resourceLookup.contains d then some d else none) := by
  induction deps with
  | nil => rfl
  | cons d ds ih =>
      by_cases h : d ∈ resourceLookup
      · simp [List.filterMap_cons, depEdgeFor, h, ih]
      · simp [List.filterMap_cons, depEdgeFor, h, ih]

/-- C6 (amended): the dependency pass emits a `DependsOn` edge from `r` to `v`
exactly for the discovered ids `v` that are known resource ids — including
`r`'s own id, which is not filtered out — and the discovered ids are
deduplicated first, so each source resource emits at most one edge per unique
discovered id. -/
theorem C6_dependency_edges_known_and_deduped :
    ∀ (resources : List AzureResource) (resourceLookup : List String),
      (∀ e ∈ extractDependencyRelationships resources resourceLookup,
        e.relationship_type = .depends_on ∧ e.target_id ∈ resourceLookup ∧
        ∃ r ∈ resources, e.source_id = r.id ∧
          e.target_id ∈ findResourceDependencies r.properties) ∧
      (∀ r : AzureResource,
        ((extractDependencyRelationships [r] resourceLookup).map
          (·.target_id)).Nodup) := by
  intro resources resourceLookup
  constructor
  · intro e he
    rw [extractDependencyRelationships_eq] at he
    obtain ⟨r, hr, hbody⟩ := List.mem_flatMap.mp he
    refine ?_
    by_cases hp : (PyVal.dict r.properties).truthy = true
    · rw [if_pos hp] at hbody
      obtain ⟨depId, hdep, hguard⟩ := List.mem_filterMap.mp hbody
      unfold depEdgeFor at hguard
      by_cases hc : resourceLookup.contains depId = true
      · rw [if_pos hc] at hguard
        obtain rfl := Option.some_injective _ hguard
        exact ⟨rfl, mem_of_contains hc, r, hr, rfl, hdep⟩
      · rw [if_neg hc] at hguard
        exact absurd hguard (by simp)
    · rw [if_neg hp] at hbody
      exact absurd hbody (by simp)
  · intro r
    rw [extractDependencyRelationships_eq]
    simp only [List.flatMap_cons, List.flatMap_nil, List.append_nil]
    by_cases hp : (PyVal.dict r.properties).truthy = true
    · rw [if_pos hp, targets_of_depEdges]
      exact List.Nodup.sublist
        (filterMap_guard_sublist (fun d => resourceLookup.contains d) _)
        (dedupKeepFirst_nodup _)
    · rw [if_neg hp]
      simp

/-- The placement the claim describes for the force layout: the resource at
index `i` sits in the cell `(i / g, i % g)` of a `g = ceil(sqrt(n))` grid,
displaced by offsets derived from the resource's relationship count modulo 3
(`0.2 · ((count mod 3) − 1)` horizontally and
`0.2 · ((⌊count/3⌋ mod 3) − 1)` vertically). -/
def forcePlacement (resources : List CloudResource)
    (relationships : List ResourceRelationship) (p : Nat × CloudResource) : PyVal :=
  let gridSize := ceilSqrt resources.length
  let connectionCount := relationships.countP
    (fun rel => rel.source_id == p.2.id || rel.target_id == p.2.id)
  .dict [
    ("x", .num (((p.1 % gridSize : Nat) : ℚ) +
      (((connectionCount % 3 : Nat) : ℚ) - 1) * (2 / 10))),
    ("y", .num (((p.1 / gridSize : Nat) : ℚ) +
      ((((connectionCount / 3) % 3 : Nat) : ℚ) - 1) * (2 / 10))),
    ("grid_position", .num (p.1 : ℚ)),
    ("connections", .num (connectionCount : ℚ))]

theorem dinsert_of_key_not_mem [BEq κ] [LawfulBEq κ] {kvs : List (κ × α)} {k : κ}
    {v : α} (h : ∀ p ∈ kvs, p.1 ≠ k) : dinsert kvs k v = kvs ++ [(k, v)] := by
  unfold dinsert
  rw [if_neg]
  intro hany
  obtain ⟨p, hp, hbeq⟩ := List.any_eq_true.mp hany
  exact h p hp (by simpa using hbeq)

theorem foldl_dinsert_map (f : Nat × CloudResource → PyVal) :
    ∀ (l : List (Nat × CloudResource)) (init : List (String × PyVal)),
      ((init.map (·.1)) ++ l.map (·.2.id)).Nodup →
      l.foldl (fun arr p => dinsert arr p.2.id (f p)) init
        = init ++ l.map (fun p => (p.2.id, f p)) := by
  intro l
  induction l with
  | nil => intro init _; simp
  | cons p ps ih =>
      intro init hnd
      simp only [List.map_cons] at hnd
      rw [List.nodup_append] at hnd
      obtain ⟨hndInit, hndCons, hdisj⟩ := hnd
      rw [List.nodup_cons] at hndCons
      have hnotmem : ∀ q ∈ init, q.1 ≠ p.2.id := by
        intro q hq heq
        exact hdisj (List.mem_map_of_mem _ hq) (heq ▸ List.mem_cons_self _ _)
      simp only [List.foldl_cons]
      rw [dinsert_of_key_not_mem hnotmem]
      rw [ih (init ++ [(p.2.id, f p)]) ?_]
      · simp
      · rw [List.map_append, List.nodup_append]
        refine ⟨?_, hndCons.2, ?_⟩
        · rw [List.nodup_append]
          refine ⟨hndInit, List.nodup_singleton _, ?_⟩
          intro a ha hb
          simp only [List.map_cons, List.map_nil, List.mem_singleton] at hb
          exact hdisj ha (hb ▸ List.mem_cons_self _ _)
        · intro a ha hb
          rcases List.mem_append.mp ha with ha | ha
          · exact hdisj ha (List.mem_cons_of_mem _ hb)
          · simp only [List.map_cons, List.map_nil, List.mem_singleton] at ha
            exact hndCons.1 (ha ▸ hb)

theorem alget_map_of_nodup (g : Nat × CloudResource → PyVal) :
    ∀ (l : List (Nat × CloudResource)) (i : Nat) (r : CloudResource),
      (l.map (·.2.id)).Nodup → (i, r) ∈ l →
      alget (l.map (fun p => (p.2.id, g p))) r.id = some (g (i, r)) := by
  intro l
  induction l with
  | nil => intro i r _ hmem; exact absurd hmem (List.not_mem_nil _)
  | cons q qs ih =>
      intro i r hnd hmem
      simp only [List.map_cons, List.nodup_cons] at hnd
      by_cases hk : (q.2.id == r.id) = true
      · have hkeq : q.2.id = r.id := by simpa using hk
        have hqe : (i, r) = q := by
          rcases List.mem_cons.mp hmem with h | h
          · exact h
          · exfalso
            apply hnd.1
            rw [hkeq]
            exact List.mem_map_of_mem (fun p => p.2.id) h
        simp only [List.map_cons, alget, List.find?_cons, hk]
        rw [← hqe]
        simp
      · have hqe : (i, r) ∈ qs := by
          rcases List.mem_cons.mp hmem with h | h
          · exfalso
            apply hk
            rw [← h]
            exact beq_self_eq_true _
          · exact h
        simp only [List.map_cons, alget, List.find?_cons, hk]
        exact ih i r hnd.2 hqe

theorem forceArrange_eq_map (resources : List CloudResource)
    (relationships : List ResourceRelationship)
    (hnd : (resources.map (·.id)).Nodup) :
    forceArrange resources relationships =
      resources.enum.map (fun p => (p.2.id, forcePlacement resources relationships p)) := by
  have hkeys : (resources.enum.map (·.2.id)).Nodup := by
    have : resources.enum.map (fun p => p.2.id)
        = (resources.enum.map Prod.snd).map (fun r => r.id) := by
      rw [List.map_map]
      rfl
    rw [this, List.enum_map_snd]
    exact hnd
  have h := foldl_dinsert_map (forcePlacement resources relationships)
    resources.enum [] (by simpa using hkeys)
  simpa [forceArrange, forcePlacement] using h

/-- C7: each of the five layout algorithms is a pure function of the resource
list, relationship list and configuration parameters — two calls with the same
inputs give the same arrangement (the circular/radial trigonometric
collaborators are fixed function parameters; nothing reads a clock or a random
source) — and the force layout stores, for the resource at each index of a
duplicate-free resource list, exactly the ceil(sqrt(n))-grid placement with
relationship-count-modulo-3 offsets described by `forcePlacement`. -/
theorem C7_layouts_deterministic_and_force_grid :
    (∀ groupByRG resources relationships,
      hierarchicalArrange groupByRG resources relationships
        = hierarchicalArrange groupByRG resources relationships) ∧
    (∀ cosF sinF centerCfg radiusIncrement resources relationships,
      circularArrange cosF sinF centerCfg radiusIncrement resources relationships
        = circularArrange cosF sinF centerCfg radiusIncrement resources relationships) ∧
    (∀ resources relationships,
      forceArrange resources relationships = forceArrange resources relationships) ∧
    (∀ columnsCfg groupByTypeCfg resources relationships,
      gridArrange columnsCfg groupByTypeCfg resources relationships
        = gridArrange columnsCfg groupByTypeCfg resources relationships) ∧
    (∀ cosDegF sinDegF centerCfg angleIncrementCfg radiusBase resources relationships,
      radialArrange cosDegF sinDegF centerCfg angleIncrementCfg radiusBase
          resources relationships
        = radialArrange cosDegF sinDegF centerCfg angleIncrementCfg radiusBase
          resources relationships) ∧
    (∀ (resources : List CloudResource) (relationships : List ResourceRelationship),
      (resources.map (·.id)).Nodup →
      ∀ (i : Nat) (hi : i < resources.length),
        alget (forceArrange resources relationships) ((resources.get ⟨i, hi⟩).id)
          = some (forcePlacement resources relationships (i, resources.get ⟨i, hi⟩))) := by
  refine ⟨fun _ _ _ => rfl, fun _ _ _ _ _ _ => rfl, fun _ _ => rfl,
    fun _ _ _ _ => rfl, fun _ _ _ _ _ _ _ => rfl, ?_⟩
  intro resources relationships hnd i hi
  rw [forceArrange_eq_map resources relationships hnd]
  apply alget_map_of_nodup
  · have : resources.enum.map (fun p => p.2.id)
        = (resources.enum.map Prod.snd).map (fun r => r.id) := by
      rw [List.map_map]
      rfl
    rw [this, List.enum_map_snd]
    exact hnd
  · have hlen : i < resources.enum.length := by
      simpa [List.enum_length] using hi
    have hmem : resources.enum[i] ∈ resources.enum := List.getElem_mem hlen
    have heq : resources.enum[i] = (i, resources[i]) := List.getElem_enum resources i hlen
    rw [heq] at hmem
    exact hmem

/-- Witness for C7's force-layout characterisation at a concrete two-resource
input. -/
theorem C7_layouts_deterministic_and_force_grid_witness :
    alget (forceArrange [resA2, resB2] [relAB2])
        ((([resA2, resB2] : List CloudResource).get ⟨1, by decide⟩).id)
      = some (forcePlacement [resA2, resB2] [relAB2]
          (1, ([resA2, resB2] : List CloudResource).get ⟨1, by decide⟩)) :=
  C7_layouts_deterministic_and_force_grid.2.2.2.2.2 [resA2, resB2] [relAB2]
    (by decide) 1 (by decide)

/-- A stand-in rendering body performing one unit of rendering work. -/
def c8Body : String → String → String → List RenderEffect × Except RenderError String :=
  fun _ _ _ => ([.generateDiagramText], .ok "flowchart TD")

/-- C8 counterexample: the empty string is a theme outside the mermaid
engine's advertised supported set, yet `validate_options` passes it (Python's
`if theme and …` treats `""` as unset), so `render` proceeds to do rendering
work instead of failing with the validation error. -/
theorem C8_counterexample_empty_theme_bypasses_validation :
    ("" ∉ mermaidSupportedThemes) ∧
    validate_options mermaidSupportedFormats mermaidSupportedThemes
      mermaidSupportedLayouts "mermaid" (some "") none = true ∧
    engineRender mermaidSupportedFormats mermaidSupportedThemes
      mermaidSupportedLayouts c8Body "mermaid" (some "") none
      = ([.generateDiagramText], .ok "flowchart TD") :=
  ⟨by decide, rfl, rfl⟩

theorem validate_options_eq (supportedFormats supportedThemes supportedLayouts :
    List String) (outputFormat : String) (theme layout : Option String) :
    validate_options supportedFormats supportedThemes supportedLayouts
        outputFormat theme layout
      = (supportedFormats.contains outputFormat &&
         !(pyTruthyStr theme && !supportedThemes.contains (theme.getD "")) &&
         !(pyTruthyStr layout && !supportedLayouts.contains (layout.getD ""))) := by
  unfold validate_options
  cases hf : supportedFormats.contains outputFormat <;>
    cases htr : pyTruthyStr theme <;>
    cases hct : supportedThemes.contains (theme.getD "") <;>
    cases hlr : pyTruthyStr layout <;>
    cases hcl : supportedLayouts.contains (layout.getD "") <;>
    simp [hf, htr, hct, hlr, hcl]

/-- C8 (amended): for every engine — every triple of advertised
format/theme/layout sets and every rendering body — calling `render` with a
format outside the supported formats, or a non-empty theme outside the
supported themes, or a non-empty layout outside the supported layouts, returns
the validation error with an empty effect trace: no diagram text is generated,
no temporary file is created, no external process is invoked.  (An empty-string
theme or layout is falsy in Python and bypasses the check — see the
counterexample.) -/
theorem C8_invalid_options_rejected_before_work :
    ∀ (supportedFormats supportedThemes supportedLayouts : List String)
      (body : String → String → String → List RenderEffect × Except RenderError String)
      (outputFormat : String) (theme layout : Option String),
      (outputFormat ∉ supportedFormats ∨
        (∃ t, theme = some t ∧ t ≠ "" ∧ t ∉ supportedThemes) ∨
        (∃ l, layout = some l ∧ l ≠ "" ∧ l ∉ supportedLayouts)) →
      engineRender supportedFormats supportedThemes supportedLayouts body
          outputFormat theme layout
        = ([], .error .validationError) := by
  intro fmts themes layouts body outputFormat theme layout h
  unfold engineRender
  rw [validate_options_eq]
  rcases h with h | ⟨t, rfl, ht, hnt⟩ | ⟨ly, rfl, hl, hnl⟩
  · have hc : fmts.contains outputFormat = false := by
      cases hb : fmts.contains outputFormat
      · rfl
      · exact absurd (mem_of_contains hb) h
    simp [hc]
    intro hmem
    exact absurd hmem h
  · have h1 : pyTruthyStr (some t) = true := by simp [pyTruthyStr, ht]
    have h2 : themes.contains ((some t).getD "") = false := by
      simp only [Option.getD_some]
      cases hb : themes.contains t
      · rfl
      · exact absurd (mem_of_contains hb) hnt
    simp [h1, h2]
    intro _ hmem
    exact absurd hmem hnt
  · have h1 : pyTruthyStr (some ly) = true := by simp [pyTruthyStr, hl]
    have h2 : layouts.contains ((some ly).getD "") = false := by
      simp only [Option.getD_some]
      cases hb : layouts.contains ly
      · rfl
      · exact absurd (mem_of_contains hb) hnl
    simp [h1, h2]
    intro _ _ hmem
    exact absurd hmem hnl

/-- Witness for C8 at the mermaid engine's sets with the unsupported theme
`"neon"`. -/
theorem C8_invalid_options_rejected_before_work_witness :
    engineRender mermaidSupportedFormats mermaidSupportedThemes
        mermaidSupportedLayouts c8Body "mermaid" (some "neon") none
      = ([], .error .validationError) :=
  C8_invalid_options_rejected_before_work mermaidSupportedFormats
    mermaidSupportedThemes mermaidSupportedLayouts c8Body "mermaid"
    (some "neon") none
    (Or.inr (Or.inl ⟨"neon", rfl, by decide, by decide⟩))

/-- The resource of the label-escaping example. -/
def resC9 : CloudResource :=
  { id := "r1", name := "He said \"hi\"", resource_type := .other,
    provider := .azure, region := "" }

/-- C9: the flowchart-style node emitted for a resource named `He said "hi"`
keeps the embedded double quotes verbatim inside the quote-delimited Mermaid
label — nothing in the label pipeline escapes them, so the produced text
contains the nested quoted sequence and is not syntactically valid Mermaid. -/
theorem C9_embedded_quote_not_escaped :
    (createResourceNode true true 20 ⟨0, []⟩ resC9 "    " "flowchart").1
      = "    node1[\"He said \"hi\"<br/>(Other)\"]" ∧
    strContains (createResourceNode true true 20 ⟨0, []⟩ resC9 "    " "flowchart").1
      "d \"hi\"<" = true :=
  ⟨rfl, rfl⟩

/-- Both endpoints of an edge are ids of resources in the list. -/
def endpointsKnown (resources : List AzureResource) (rel : ResourceRelationship) :
    Prop :=
  rel.source_id ∈ resources.map (·.id) ∧ rel.target_id ∈ resources.map (·.id)

/-- The invariant of the grouping fold inside
`_extract_containment_relationships`: every grouped or collected resource came
from the input list. -/
def containGroupInv (resources : List AzureResource)
    (st : List (String × List AzureResource) × List (String × AzureResource)) :
    Prop :=
  (∀ p ∈ st.1, ∀ r ∈ p.2, r ∈ resources) ∧ (∀ q ∈ st.2, q.2 ∈ resources)

theorem containment_endpoints (resources : List AzureResource) :
    ∀ rel ∈ extractContainmentRelationships resources, endpointsKnown resources rel := by
  unfold extractContainmentRelationships
  set step := fun (st : List (String × List AzureResource) × List (String × AzureResource))
      (r : AzureResource) =>
    if r.get_azure_resource_type == some .resource_group then
      (st.1, dinsert st.2 r.name r)
    else if pyTruthyStr r.resource_group_name then
      (dappend st.1 (r.resource_group_name.getD "") r, st.2)
    else st with hstep
  have hInv : containGroupInv resources (resources.foldl step ([], [])) := by
    apply List.foldlRecOn resources step ([], [])
    · exact ⟨by simp, by simp⟩
    · intro st hst r hr
      obtain ⟨hst1, hst2⟩ := hst
      have hst : containGroupInv resources st := ⟨hst1, hst2⟩
      simp only [hstep]
      by_cases h1 : (r.get_azure_resource_type == some .resource_group) = true
      · simp only [h1, if_pos]
        refine ⟨hst.1, ?_⟩
        intro q hq
        rcases mem_dinsert hq with rfl | hq2
        · exact hr
        · exact hst.2 q hq2
      · rw [if_neg h1]
        by_cases h2 : pyTruthyStr r.resource_group_name = true
        · rw [if_pos h2]
          refine ⟨?_, hst.2⟩
          intro p hp r2 hr2
          unfold dappend at hp
          cases halg : alget st.1 (r.resource_group_name.getD "") with
          | some l =>
              rw [halg] at hp
              rcases mem_dinsert hp with rfl | hp2
              · rcases List.mem_append.mp hr2 with hh | hh
                · exact hst.1 _ (alget_mem halg) r2 hh
                · rw [List.mem_singleton.mp hh]; exact hr
              · exact hst.1 p hp2 r2 hr2
          | none =>
              rw [halg] at hp
              rcases List.mem_append.mp hp with hp2 | hp2
              · exact hst.1 p hp2 r2 hr2
              · rw [List.mem_singleton.mp hp2] at hr2
                rw [List.mem_singleton.mp hr2]
                exact hr
        · rw [if_neg h2]
          exact hst
  intro rel hrel
  obtain ⟨p, hp, hbody⟩ := List.mem_flatMap.mp hrel
  cases halg : alget (resources.foldl step ([], [])).2 p.1 with
  | none => rw [halg] at hbody; exact absurd hbody (List.not_mem_nil _)
  | some rgResource =>
      rw [halg] at hbody
      obtain ⟨r, hr, hrel2⟩ := List.mem_map.mp hbody
      have hrg : rgResource ∈ resources := hInv.2 _ (alget_mem halg)
      have hrmem : r ∈ resources := hInv.1 p hp r hr
      rw [← hrel2]
      exact ⟨List.mem_map_of_mem (·.id) hrg, List.mem_map_of_mem (·.id) hrmem⟩

theorem vnetSubnetEdges_endpoints (resources : List AzureResource)
    (subnet : AzureResource) (hsub : subnet ∈ resources) :
    ∀ rel ∈ vnetSubnetEdges (resources.map (·.id)) subnet,
      endpointsKnown resources rel := by
  intro rel hrel
  simp only [vnetSubnetEdges] at hrel
  split at hrel
  · split at hrel
    · split at hrel
      · rw [List.mem_singleton.mp hrel]
        refine ⟨?_, List.mem_map_of_mem (·.id) hsub⟩
        next hc => exact mem_of_contains hc
      · exact absurd hrel (List.not_mem_nil _)
    · exact absurd hrel (List.not_mem_nil _)
  · exact absurd hrel (List.not_mem_nil _)

theorem nicEdges_endpoints (resources : List AzureResource)
    (nic : AzureResource) (hnic : nic ∈ resources) :
    ∀ rel ∈ nicEdges (resources.map (·.id)) nic, endpointsKnown resources rel := by
  intro rel hrel
  simp only [nicEdges] at hrel
  cases hit : nicIpConfigs nic with
  | error e => rw [hit] at hrel; exact absurd hrel (List.not_mem_nil _)
  | ok items =>
      rw [hit] at hrel
      obtain ⟨ipConfig, _, hbody⟩ := List.mem_flatMap.mp hrel
      split at hbody
      · split at hbody
        next s =>
          split at hbody
          · rw [List.mem_singleton.mp hbody]
            refine ⟨List.mem_map_of_mem (·.id) hnic, ?_⟩
            next hc => exact mem_of_contains hc
          · exact absurd hbody (List.not_mem_nil _)
        all_goals exact absurd hbody (List.not_mem_nil _)
      · exact absurd hbody (List.not_mem_nil _)

theorem network_endpoints (resources : List AzureResource)
    (out : List ResourceRelationship)
    (h : extractNetworkRelationships resources (resources.map (·.id)) = .ok out) :
    ∀ rel ∈ out, endpointsKnown resources rel := by
  simp only [extractNetworkRelationships] at h
  split at h
  · exact absurd h (by simp)
  · obtain rfl := (Except.ok.injEq _ _).mp h
    intro rel hrel
    rcases List.mem_append.mp hrel with hrel | hrel
    · obtain ⟨subnet, hsub, hbody⟩ := List.mem_flatMap.mp hrel
      exact vnetSubnetEdges_endpoints resources subnet
        (List.mem_of_mem_filter hsub) rel hbody
    · obtain ⟨nic, hnic, hbody⟩ := List.mem_flatMap.mp hrel
      exact nicEdges_endpoints resources nic
        (List.mem_of_mem_filter hnic) rel hbody

theorem dependency_endpoints (resources : List AzureResource) :
    ∀ rel ∈ extractDependencyRelationships resources (resources.map (·.id)),
      endpointsKnown resources rel := by
  intro rel hrel
  rw [extractDependencyRelationships_eq] at hrel
  obtain ⟨r, hr, hbody⟩ := List.mem_flatMap.mp hrel
  split at hbody
  · obtain ⟨depId, _, hguard⟩ := List.mem_filterMap.mp hbody
    unfold depEdgeFor at hguard
    split at hguard
    · obtain rfl := Option.some_injective _ hguard
      refine ⟨List.mem_map_of_mem (·.id) hr, ?_⟩
      next hc => exact mem_of_contains hc
    · exact absurd hguard (by simp)
  · exact absurd hbody (List.not_mem_nil _)

theorem management_endpoints (resources : List AzureResource) :
    ∀ rel ∈ extractManagementRelationships resources (resources.map (·.id)),
      endpointsKnown resources rel := by
  intro rel hrel
  unfold extractManagementRelationships at hrel
  obtain ⟨r, hr, hbody⟩ := List.mem_flatMap.mp hrel
  split at hbody
  · rw [List.mem_singleton.mp hbody]
    refine ⟨List.mem_map_of_mem (·.id) hr, ?_⟩
    next hcond =>
      have hc : (resources.map (·.id)).contains (r.managed_by.getD "") = true :=
        (Bool.and_eq_true _ _).mp hcond |>.2
      exact mem_of_contains hc
  · exact absurd hbody (List.not_mem_nil _)

/-- C10: every relationship returned by `extract_resource_relationships` has
both endpoints among the ids of the input resources — each of the four
inference passes checks any referenced id against the resource lookup (or
takes it from a resource in the list) before emitting an edge, so inferred
relationships are never dangling. -/
theorem C10_inferred_relationships_never_dangling :
    ∀ (resources : List AzureResource),
      ∀ rel ∈ extract_resource_relationships resources,
        rel.source_id ∈ resources.map (·.id) ∧
        rel.target_id ∈ resources.map (·.id) := by
  intro resources rel hrel
  simp only [extract_resource_relationships] at hrel
  cases hnet : extractNetworkRelationships resources (resources.map (·.id)) with
  | error e =>
      rw [hnet] at hrel
      exact containment_endpoints resources rel hrel
  | ok network =>
      rw [hnet] at hrel
      rcases List.mem_append.mp hrel with hrel | hm
      · rcases List.mem_append.mp hrel with hrel | hd
        · rcases List.mem_append.mp hrel with hc | hn
          · exact containment_endpoints resources rel hc
          · exact network_endpoints resources network hnet rel hn
        · exact dependency_endpoints resources rel hd
      · exact management_endpoints resources rel hm

/-- A resource referencing another subscription-scoped id, for the C6
witness. -/
def resW6 : AzureResource :=
  { id := "/subscriptions/w/b", name := "b",
    properties := [("id", .str "/subscriptions/w/a")] }

/-- The edge the dependency pass emits for `resW6` against a lookup containing
the referenced id. -/
def relW6 : ResourceRelationship :=
  { source_id := "/subscriptions/w/b", target_id := "/subscriptions/w/a",
    relationship_type := .depends_on,
    properties := [("type", PyVal.str "resource_dependency")] }

/-- Witness for C6's amended statement at a concrete resource and lookup. -/
theorem C6_dependency_edges_known_and_deduped_witness :
    (relW6 ∈ extractDependencyRelationships [resW6]
        ["/subscriptions/w/a", "/subscriptions/w/b"]) ∧
    (relW6.relationship_type = .depends_on ∧
      relW6.target_id ∈ ["/subscriptions/w/a", "/subscriptions/w/b"] ∧
      ∃ r ∈ [resW6], relW6.source_id = r.id ∧
        relW6.target_id ∈ findResourceDependencies r.properties) ∧
    ((extractDependencyRelationships [resW6]
        ["/subscriptions/w/a", "/subscriptions/w/b"]).map (·.target_id)).Nodup :=
  ⟨List.mem_cons_self _ _,
   (C6_dependency_edges_known_and_deduped [resW6]
      ["/subscriptions/w/a", "/subscriptions/w/b"]).1 relW6 (List.mem_cons_self _ _),
   (C6_dependency_edges_known_and_deduped [resW6]
      ["/subscriptions/w/a", "/subscriptions/w/b"]).2 resW6⟩

/-- The resource of the C10 witness. -/
def resW10 : AzureResource :=
  { id := "/subscriptions/w/rg", name := "rg",
    properties := [("ref", .dict [("resourceId", .str "/subscriptions/w/rg")])] }

/-- The edge inference emits for `resW10`. -/
def relW10 : ResourceRelationship :=
  { source_id := "/subscriptions/w/rg", target_id := "/subscriptions/w/rg",
    relationship_type := .depends_on,
    properties := [("type", PyVal.str "resource_dependency")] }

/-- Witness for C10 at a concrete one-resource input. -/
theorem C10_inferred_relationships_never_dangling_witness :
    (relW10 ∈ extract_resource_relationships [resW10]) ∧
    (relW10.source_id ∈ ([resW10] : List AzureResource).map (·.id) ∧
      relW10.target_id ∈ ([resW10] : List AzureResource).map (·.id)) :=
  ⟨List.mem_cons_self _ _,
   C10_inferred_relationships_never_dangling [resW10] relW10 (List.mem_cons_self _ _)⟩

end Cloudviz
